import Mathlib

/-!
Verification of the metrics-derivation and scoring engine of the
Fundamental-Analysis repository.

The repository holds two implementations of the same engine:
the legacy one (`metrics.py`, `analyzer.py`) and the service one
(`utils/calculation_helpers.py`, `services/metrics_service.py`,
`services/analysis_service.py`).  Both are embedded below.

Value model.  A table cell, as the Python code can observe it, is
Python `None`, a float NaN, a finite number (modelled as a rational),
or a string.  A string cell carries the result of Python `float(s)`:
`some q` when the string parses as a number, `none` when `float`
raises `ValueError`.  The characters of the string are irrelevant to
the embedded logic and are not modelled; the one consequence is that
Python string concatenation (`str + str`) is folded into the
`TypeError` case of `pyAdd`, which is justified below at `pyAdd`.
Computed metric values are NaN, a finite number, or `np.inf` (the
latter produced only by the Interest-Coverage special case).
Fallible Python code (code that can raise an uncaught exception) is
embedded in `Except String`; an `Except.error` value marks a raised
exception.
-/

namespace FundAnalysis

/-- A cell of a financial-statement table or of the key-statistics
mapping: Python `None`, float NaN, a finite number, or a string with
its `float`-parse result. -/
inductive Cell where
  | noneV : Cell
  | nanV : Cell
  | num : ℚ → Cell
  | str : Option ℚ → Cell
deriving DecidableEq, Repr

/-- Outcome of one metric computation: NaN ("no data"), a finite
number, or `np.inf`. -/
inductive MVal where
  | nanV : MVal
  | num : ℚ → MVal
  | inf : MVal
deriving DecidableEq, Repr

/-- `pd.isna` on a cell: true exactly for Python `None` and NaN. -/
def pdIsna : Cell → Bool
  | Cell.noneV => true
  | Cell.nanV => true
  | Cell.num _ => false
  | Cell.str _ => false

/-- `pd.isna` on a metric value (strings cannot occur there). -/
def mIsna : MVal → Bool
  | MVal.nanV => true
  | _ => false

/-- A financial-statement table: the number of period columns
(`df.shape[1]`) and the labelled rows; column 0 is the most recent
period. -/
structure DF where
  ncols : ℕ
  rows : List (String × List Cell)
deriving DecidableEq, Repr

/-- `df.empty`: a DataFrame is empty when either axis has length 0. -/
def DF.isEmpty (df : DF) : Bool := df.rows.isEmpty || df.ncols == 0

/-- `df.loc[label]`, the cells of the row carrying `label` (first
occurrence, labels are unique in real statements). -/
def lookupRow (df : DF) (l : String) : Option (List Cell) := df.rows.lookup l

/-- `label in df.index`. -/
def inIndex (df : DF) (l : String) : Bool := (lookupRow df l).isSome

/-- Column `i` of the table as a pandas Series: label to cell. -/
def DF.colS (df : DF) (i : ℕ) : List (String × Cell) :=
  df.rows.map (fun r => (r.1, r.2.getD i Cell.noneV))

/-- Python `a + b` on observed cells.  `num + num` adds and NaN
propagates, as for Python floats.  Adding a string raises `TypeError`
in Python, except for `str + str`, which concatenates; a concatenated
string is itself a non-numeric string, and every consumer of such a
sum in the embedded code (a division by it as numerator with a
non-missing denominator, `/ 2`, `> 0`, `abs`) raises `TypeError` in
Python, so the concatenation case is folded into the error case. -/
def pyAdd : Cell → Cell → Except String Cell
  | Cell.num x, Cell.num y => Except.ok (Cell.num (x + y))
  | Cell.nanV, Cell.num _ => Except.ok Cell.nanV
  | Cell.num _, Cell.nanV => Except.ok Cell.nanV
  | Cell.nanV, Cell.nanV => Except.ok Cell.nanV
  | _, _ => Except.error "TypeError"

/-- Python `a - b` on observed cells. -/
def pySub : Cell → Cell → Except String Cell
  | Cell.num x, Cell.num y => Except.ok (Cell.num (x - y))
  | Cell.nanV, Cell.num _ => Except.ok Cell.nanV
  | Cell.num _, Cell.nanV => Except.ok Cell.nanV
  | Cell.nanV, Cell.nanV => Except.ok Cell.nanV
  | _, _ => Except.error "TypeError"

/-- Python `a / 2` on a cell. -/
def pyDiv2 : Cell → Except String Cell
  | Cell.num x => Except.ok (Cell.num (x / 2))
  | Cell.nanV => Except.ok Cell.nanV
  | _ => Except.error "TypeError"

/-- Python `abs a` on a cell. -/
def pyAbs : Cell → Except String Cell
  | Cell.num x => Except.ok (Cell.num |x|)
  | Cell.nanV => Except.ok Cell.nanV
  | _ => Except.error "TypeError"

/-- Python `a > 0` on a cell: NaN compares false, `None` and strings
raise `TypeError`. -/
def cellGt0 : Cell → Except String Bool
  | Cell.num x => Except.ok (decide (0 < x))
  | Cell.nanV => Except.ok false
  | _ => Except.error "TypeError"

/-- Python `a != 0` on a cell: NaN, `None` and strings all compare
unequal to `0`. -/
def cellNe0 : Cell → Bool
  | Cell.num x => x != 0
  | _ => true

/-- The Python test `denominator is None or pd.isna(denominator) or
denominator == 0`. -/
def denomBad : Cell → Bool
  | Cell.noneV => true
  | Cell.nanV => true
  | Cell.num y => y == 0
  | Cell.str _ => false

/-- Python `float(x)` restricted to the cells it is applied to:
numbers pass through, strings parse or fail. -/
def floatOf : Cell → Option ℚ
  | Cell.num q => some q
  | Cell.str p => p
  | _ => Option.none

/-! ## Legacy layer: fundamental_analyzer/metrics.py -/

/-- `metrics.safe_division`: NaN for a `None`/NaN/zero denominator or
a `None`/NaN numerator, otherwise the bare Python division, which
raises `TypeError` when an operand is a string. -/
def safe_division_m (a b : Cell) : Except String MVal :=
  if denomBad b then Except.ok MVal.nanV
  else if pdIsna a then Except.ok MVal.nanV
  else
    match a, b with
    | Cell.num x, Cell.num y => Except.ok (MVal.num (x / y))
    | _, _ => Except.error "TypeError"

/-- `metrics.get_metric`: the named row of a Series, or the default
when the Series is absent, the label is absent, or the value is
`None`/NaN. -/
def get_metric (data : Option (List (String × Cell))) (name : String) (default : Cell) : Cell :=
  match data with
  | Option.none => default
  | some s =>
    match s.lookup name with
    | Option.none => default
    | some v => if pdIsna v then default else v

/-- The trailing dictionary comprehension
`{k: v for k, v in metrics.items() if pd.notna(v)}` of every
metrics.py calculator. -/
def filterM (l : List (String × MVal)) : List (String × MVal) :=
  l.filter (fun kv => !mIsna kv.2)

/-- The same NaN filter for a cell-valued dictionary
(`calculate_valuation_metrics` stores raw key-statistics values). -/
def filterC (l : List (String × Cell)) : List (String × Cell) :=
  l.filter (fun kv => !pdIsna kv.2)

/-- The repeated metrics.py pattern
`(latest + prev) / 2 if pd.notna(latest) and pd.notna(prev) else latest`. -/
def avgIfBoth (l p : Cell) : Except String Cell :=
  if !pdIsna l && !pdIsna p then do
    let s ← pyAdd l p
    pyDiv2 s
  else Except.ok l

/-- `metrics.calculate_profitability_metrics` up to (not including)
its final NaN filter. -/
def calc_profitability_raw (income_stmt balance_sheet : Option DF) :
    Except String (List (String × MVal)) :=
  match income_stmt, balance_sheet with
  | some inc, some bs =>
    if inc.isEmpty || bs.isEmpty then Except.ok []
    else do
      let latest_income := some (inc.colS 0)
      let latest_balance := some (bs.colS 0)
      let prev_balance := if 1 < bs.ncols then some (bs.colS 1) else latest_balance
      let net_income := get_metric latest_income "Net Income" (Cell.num 0)
      let total_revenue := get_metric latest_income "Total Revenue" Cell.nanV
      let gross_profit := get_metric latest_income "Gross Profit" Cell.nanV
      let eqL0 := get_metric latest_balance "Stockholder Equity" Cell.nanV
      let eqL := if pdIsna eqL0 then get_metric latest_balance "Total Stockholder Equity" Cell.nanV else eqL0
      let assetsL := get_metric latest_balance "Total Assets" Cell.nanV
      let eqP0 := get_metric prev_balance "Stockholder Equity" Cell.nanV
      let eqP := if pdIsna eqP0 then get_metric prev_balance "Total Stockholder Equity" Cell.nanV else eqP0
      let assetsP := get_metric prev_balance "Total Assets" Cell.nanV
      let avg_equity ← avgIfBoth eqL eqP
      let avg_assets ← avgIfBoth assetsL assetsP
      let roe ← safe_division_m net_income avg_equity
      let roa ← safe_division_m net_income avg_assets
      let gm ← safe_division_m gross_profit total_revenue
      let nm ← safe_division_m net_income total_revenue
      Except.ok [("ROE", roe), ("ROA", roa), ("Gross Margin", gm), ("Net Margin", nm)]
  | _, _ => Except.ok []

/-- `metrics.calculate_profitability_metrics`. -/
def calculate_profitability_metrics (income_stmt balance_sheet : Option DF) :
    Except String (List (String × MVal)) :=
  (calc_profitability_raw income_stmt balance_sheet).map filterM

/-- Python `key_stats.get(k, np.nan)`. -/
def dictGet (ks : List (String × Cell)) (k : String) : Cell :=
  (ks.lookup k).getD Cell.nanV

/-- `metrics.calculate_valuation_metrics`.  The alternative-P/B branch
in the source is a bare `pass` and so has no effect. -/
def calculate_valuation_metrics (key_stats : Option (List (String × Cell))) :
    List (String × Cell) :=
  match key_stats with
  | Option.none => []
  | some ks =>
      filterC [("P/E", dictGet ks "trailingPE"), ("Forward P/E", dictGet ks "forwardPE"),
               ("P/B", dictGet ks "priceToBook"), ("PEG", dictGet ks "pegRatio")]

/-- `metrics.calculate_liquidity_metrics` up to its final NaN filter. -/
def calc_liquidity_raw (balance_sheet : Option DF) :
    Except String (List (String × MVal)) :=
  match balance_sheet with
  | some bs =>
    if bs.isEmpty then Except.ok []
    else do
      let latest_balance := some (bs.colS 0)
      let ca0 := get_metric latest_balance "Current Assets" Cell.nanV
      let current_assets := if pdIsna ca0 then get_metric latest_balance "Total Current Assets" Cell.nanV else ca0
      let cl0 := get_metric latest_balance "Current Liabilities" Cell.nanV
      let current_liabilities := if pdIsna cl0 then get_metric latest_balance "Total Current Liabilities" Cell.nanV else cl0
      let inventory := get_metric latest_balance "Inventory" (Cell.num 0)
      let cr ← safe_division_m current_assets current_liabilities
      let quick_assets ← if !pdIsna current_assets then pySub current_assets inventory else Except.ok Cell.nanV
      let qr ← safe_division_m quick_assets current_liabilities
      Except.ok [("Current Ratio", cr), ("Quick Ratio", qr)]
  | Option.none => Except.ok []

/-- `metrics.calculate_liquidity_metrics`. -/
def calculate_liquidity_metrics (balance_sheet : Option DF) :
    Except String (List (String × MVal)) :=
  (calc_liquidity_raw balance_sheet).map filterM

/-- `metrics.calculate_efficiency_metrics` up to its final NaN filter.
The `avg_inventory` guard in the source is `is not None`, not
`pd.notna`, hence the distinct test on `Cell.noneV`. -/
def calc_efficiency_raw (income_stmt balance_sheet : Option DF) :
    Except String (List (String × MVal)) :=
  match income_stmt, balance_sheet with
  | some inc, some bs =>
    if inc.isEmpty || bs.isEmpty then Except.ok []
    else do
      let latest_income := some (inc.colS 0)
      let latest_balance := some (bs.colS 0)
      let prev_balance := if 1 < bs.ncols then some (bs.colS 1) else latest_balance
      let total_revenue := get_metric latest_income "Total Revenue" Cell.nanV
      let cogs0 := get_metric latest_income "Cost Of Revenue" Cell.nanV
      let cogs := if pdIsna cogs0 then get_metric latest_income "Cost of Goods Sold" Cell.nanV else cogs0
      let assetsL := get_metric latest_balance "Total Assets" Cell.nanV
      let assetsP := get_metric prev_balance "Total Assets" Cell.nanV
      let avg_assets ← avgIfBoth assetsL assetsP
      let invL := get_metric latest_balance "Inventory" (Cell.num 0)
      let invP := get_metric prev_balance "Inventory" (Cell.num 0)
      let avg_inventory ← if invL != Cell.noneV && invP != Cell.noneV then do
          let s ← pyAdd invL invP
          pyDiv2 s
        else Except.ok invL
      let assetTurnover ← safe_division_m total_revenue avg_assets
      let invTurnover ← safe_division_m cogs avg_inventory
      Except.ok [("Asset Turnover", assetTurnover), ("Inventory Turnover", invTurnover)]
  | _, _ => Except.ok []

/-- `metrics.calculate_efficiency_metrics`. -/
def calculate_efficiency_metrics (income_stmt balance_sheet : Option DF) :
    Except String (List (String × MVal)) :=
  (calc_efficiency_raw income_stmt balance_sheet).map filterM

/-- `metrics.calculate_solvency_metrics` up to its final NaN filter.
Note that the debt components are fetched with `default=0`, so they
are never NaN and the `pd.notna(...) or pd.notna(...)` guard always
holds; and that the Interest-Coverage line reads
`safe_division(ebit, abs(ie)) if pd.notna(ie) and ie != 0
else np.inf if ebit > 0 else np.nan`. -/
def calc_solvency_raw (balance_sheet income_stmt : Option DF) :
    Except String (List (String × MVal)) :=
  match balance_sheet, income_stmt with
  | some bs, some inc =>
    if bs.isEmpty || inc.isEmpty then Except.ok []
    else do
      let latest_balance := some (bs.colS 0)
      let latest_income := some (inc.colS 0)
      let td0 := get_metric latest_balance "Total Debt" Cell.nanV
      let total_debt ←
        if pdIsna td0 then do
          let ltd := get_metric latest_balance "Long Term Debt" (Cell.num 0)
          let std0 := get_metric latest_balance "Current Debt" (Cell.num 0)
          let std := if pdIsna std0 then get_metric latest_balance "Short Term Debt" (Cell.num 0) else std0
          if !pdIsna ltd || !pdIsna std then
            pyAdd (if !pdIsna ltd then ltd else Cell.num 0) (if !pdIsna std then std else Cell.num 0)
          else Except.ok td0
        else Except.ok td0
      let eq0 := get_metric latest_balance "Stockholder Equity" Cell.nanV
      let total_equity := if pdIsna eq0 then get_metric latest_balance "Total Stockholder Equity" Cell.nanV else eq0
      let ebit0 := get_metric latest_income "EBIT" Cell.nanV
      let ebit ←
        if pdIsna ebit0 then do
          let net_income := get_metric latest_income "Net Income" (Cell.num 0)
          let interest_expense := get_metric latest_income "Interest Expense" (Cell.num 0)
          let tax0 := get_metric latest_income "Tax Provision" (Cell.num 0)
          let tax_expense := if pdIsna tax0 then get_metric latest_income "Income Tax Expense" (Cell.num 0) else tax0
          if !pdIsna net_income && !pdIsna interest_expense && !pdIsna tax_expense then do
            let s ← pyAdd net_income interest_expense
            pyAdd s tax_expense
          else Except.ok ebit0
        else Except.ok ebit0
      let ie2 := get_metric latest_income "Interest Expense" Cell.nanV
      let de ← safe_division_m total_debt total_equity
      let ic ←
        if !pdIsna ie2 && cellNe0 ie2 then do
          let a ← pyAbs ie2
          safe_division_m ebit a
        else do
          let g ← cellGt0 ebit
          if g then Except.ok MVal.inf else Except.ok MVal.nanV
      Except.ok [("Debt/Equity", de), ("Interest Coverage", ic)]
  | _, _ => Except.ok []

/-- `metrics.calculate_solvency_metrics`. -/
def calculate_solvency_metrics (balance_sheet income_stmt : Option DF) :
    Except String (List (String × MVal)) :=
  (calc_solvency_raw balance_sheet income_stmt).map filterM

/-! ## Service layer: utils/calculation_helpers.py -/

/-- `calculation_helpers.safe_division`: NaN for `None`/NaN operands;
both operands are then converted with `float` under a
`try/except (ValueError, TypeError)` that yields NaN; a zero
denominator (checked after conversion) yields NaN; otherwise the
quotient.  The function cannot raise. -/
def safe_division_h (a b : Cell) : MVal :=
  if pdIsna a || pdIsna b then MVal.nanV
  else
    match floatOf a, floatOf b with
    | some x, some y => if y == 0 then MVal.nanV else MVal.num (x / y)
    | _, _ => MVal.nanV

/-- The synonym loop of `calculation_helpers.get_value_from_df`.
First component: the `value` variable after the loop (`none` = never
assigned); second component: the `label_found` flag.  A found label
whose cell is `None`/NaN breaks with NaN; a numeric or parseable cell
breaks with the parsed number; a present label whose cell fails
`float` conversion is skipped (`except ... continue`) and the loop
moves to the next synonym, keeping `label_found` true. -/
def ch_loop (df : DF) (col : ℕ) : List String → Option Cell × Bool
  | [] => (Option.none, false)
  | l :: rest =>
    match lookupRow df l with
    | Option.none => ch_loop df col rest
    | some cells =>
      match cells.getD col Cell.noneV with
      | Cell.noneV => (some Cell.nanV, true)
      | Cell.nanV => (some Cell.nanV, true)
      | Cell.num q => (some (Cell.num q), true)
      | Cell.str (some q) => (some (Cell.num q), true)
      | Cell.str Option.none => ((ch_loop df col rest).1, true)

/-- `calculation_helpers.get_value_from_df`.  `Cell.noneV` plays the
role of the Python `None` return ("label not found"), `Cell.nanV` of
`np.nan` ("found but no usable value or excluded negative"). -/
def ch_get_value (df? : Option DF) (labels : List String) (col : ℕ) (allowNeg : Bool) : Cell :=
  match df? with
  | Option.none => Cell.noneV
  | some df =>
    if df.isEmpty || df.ncols ≤ col then Cell.noneV
    else
      match ch_loop df col labels with
      | (Option.none, true) => Cell.nanV
      | (Option.none, false) => Cell.noneV
      | (some (Cell.num q), _) => if !allowNeg && q < 0 then Cell.nanV else Cell.num q
      | (some c, _) => c

/-- `calculation_helpers.get_average_value_from_df`.  The two
`.num`-pattern fall-through rows mirror `latest_is_num` /
`prior_is_num` (`is not None and pd.notna`): `ch_get_value` never
returns a string cell, so "valid" coincides with being numeric. -/
def ch_get_average (df? : Option DF) (labels : List String) (allowNeg : Bool) : Cell :=
  let latest := ch_get_value df? labels 0 allowNeg
  match df? with
  | Option.none => latest
  | some df =>
    if df.ncols < 2 then latest
    else
      let prior := ch_get_value df? labels 1 allowNeg
      match latest, prior with
      | Cell.num a, Cell.num b => Cell.num ((a + b) / 2)
      | Cell.num a, _ => Cell.num a
      | _, Cell.num b => Cell.num b
      | l, p => if pdIsna l || pdIsna p then Cell.nanV else Cell.noneV

/-! ## Service layer: services/metrics_service.py -/

/-- `metrics_service._safe_division`: NaN when either operand is
`None`/NaN or the denominator equals 0; the division itself runs
under `try/except (TypeError, ValueError)`, so string operands also
yield NaN.  The function cannot raise. -/
def safe_division_s (a b : Cell) : MVal :=
  if pdIsna a || denomBad b then MVal.nanV
  else
    match a, b with
    | Cell.num x, Cell.num y => MVal.num (x / y)
    | _, _ => MVal.nanV

/-- The synonym loop of `metrics_service._get_value_from_df`: like
`ch_loop` but without the `label_found` flag (the service version has
no found-but-unconverted fixup). -/
def sv_loop (df : DF) (col : ℕ) : List String → Cell
  | [] => Cell.noneV
  | l :: rest =>
    match lookupRow df l with
    | Option.none => sv_loop df col rest
    | some cells =>
      match cells.getD col Cell.noneV with
      | Cell.noneV => Cell.nanV
      | Cell.nanV => Cell.nanV
      | Cell.num q => Cell.num q
      | Cell.str (some q) => Cell.num q
      | Cell.str Option.none => sv_loop df col rest

/-- `metrics_service._get_value_from_df`.  The negative check tests
`value is not None and not allow_negative and value < 0`; NaN compares
false with `< 0`, so only numeric cells are affected. -/
def sv_get_value (df? : Option DF) (labels : List String) (col : ℕ) (allowNeg : Bool) : Cell :=
  match df? with
  | Option.none => Cell.noneV
  | some df =>
    if df.isEmpty || df.ncols ≤ col then Cell.noneV
    else
      match sv_loop df col labels with
      | Cell.num q => if !allowNeg && q < 0 then Cell.nanV else Cell.num q
      | c => c

/-- `metrics_service._get_average_value_from_df`: prior value when the
latest is `None`/NaN, latest when the prior is `None`/NaN, else the
mean.  The final catch-all is unreachable (`sv_get_value` never
returns a string cell). -/
def sv_get_average (df? : Option DF) (labels : List String) (allowNeg : Bool) : Cell :=
  let latest := sv_get_value df? labels 0 allowNeg
  match df? with
  | Option.none => latest
  | some df =>
    if df.ncols < 2 then latest
    else
      let prior := sv_get_value df? labels 1 allowNeg
      if pdIsna latest then prior
      else if pdIsna prior then latest
      else
        match latest, prior with
        | Cell.num a, Cell.num b => Cell.num ((a + b) / 2)
        | a, _ => a

/-- `MetricsService._calculate_profitability`. -/
def sv_calculate_profitability (income_stmt balance_sheet : Option DF) :
    List (String × MVal) :=
  let net_income := sv_get_value income_stmt ["Net Income", "NetIncome"] 0 true
  let total_revenue := sv_get_value income_stmt ["Total Revenue", "Revenue", "Total Sales"] 0 false
  let gross_profit := sv_get_value income_stmt ["Gross Profit", "GrossProfit"] 0 true
  let avg_equity := sv_get_average balance_sheet ["Stockholder Equity", "Total Stockholder Equity", "Total Equity Gross Minority Interest"] true
  let avg_assets := sv_get_average balance_sheet ["Total Assets", "TotalAssets"] false
  [("ROE", safe_division_s net_income avg_equity),
   ("ROA", safe_division_s net_income avg_assets),
   ("Gross Margin", safe_division_s gross_profit total_revenue),
   ("Net Margin", safe_division_s net_income total_revenue)]

/-- `MetricsService._calculate_liquidity`.  A missing or `None`/NaN
Inventory is replaced by `0.0` before the Quick-Ratio subtraction;
`quick_assets` stays `None` when Current Assets is not a number. -/
def sv_calculate_liquidity (balance_sheet : Option DF) : List (String × MVal) :=
  let current_assets := sv_get_value balance_sheet ["Current Assets", "Total Current Assets"] 0 false
  let current_liabilities := sv_get_value balance_sheet ["Current Liabilities", "Total Current Liabilities"] 0 false
  let invR := sv_get_value balance_sheet ["Inventory", "Inventories"] 0 false
  let inventory : ℚ := match invR with | Cell.num q => q | _ => 0
  let quick_assets : Cell := match current_assets with
    | Cell.num a => Cell.num (a - inventory)
    | _ => Cell.noneV
  [("Current Ratio", safe_division_s current_assets current_liabilities),
   ("Quick Ratio", safe_division_s quick_assets current_liabilities)]

/-- `MetricsService._calculate_efficiency`. -/
def sv_calculate_efficiency (income_stmt balance_sheet : Option DF) :
    List (String × MVal) :=
  let total_revenue := sv_get_value income_stmt ["Total Revenue", "Revenue", "Total Sales"] 0 false
  let cogs := sv_get_value income_stmt ["Cost Of Revenue", "Cost of Goods Sold", "Cost Of Goods And Services Sold"] 0 false
  let avg_assets := sv_get_average balance_sheet ["Total Assets", "TotalAssets"] false
  let avg_inventory := sv_get_average balance_sheet ["Inventory", "Inventories"] false
  [("Asset Turnover", safe_division_s total_revenue avg_assets),
   ("Inventory Turnover", safe_division_s cogs avg_inventory)]

/-- The Interest-Expense resolution of `MetricsService._calculate_solvency`. -/
def sv_solvency_ie (income_stmt : Option DF) : Cell :=
  sv_get_value income_stmt ["Interest Expense", "Interest Expense Net"] 0 true

/-- The EBIT resolution of `MetricsService._calculate_solvency`: read
directly, else `net_income + tax_provision + abs(interest_expense)`
when all three components are numbers, else NaN.  (The guard in the
source is `is not None and pd.notna`, which coincides with being
numeric since `sv_get_value` never returns a string cell.) -/
def sv_solvency_ebit (income_stmt : Option DF) : Cell :=
  let e := sv_get_value income_stmt ["EBIT", "Earnings Before Interest And Taxes"] 0 true
  if pdIsna e then
    let ni := sv_get_value income_stmt ["Net Income", "NetIncome"] 0 true
    let tax := sv_get_value income_stmt ["Tax Provision", "Income Tax Expense Benefit", "Income Tax Expense"] 0 true
    let ie := sv_solvency_ie income_stmt
    match ni, ie, tax with
    | Cell.num n, Cell.num i, Cell.num t => Cell.num (n + t + |i|)
    | _, _, _ => Cell.nanV
  else e

/-- `MetricsService._calculate_solvency`.  Total Debt falls back to
LongTermDebt + ShortTermDebt with each non-numeric component read as
`0.0`, and is reset to NaN unless one component is positive; Interest
Coverage divides EBIT by `abs` of the interest expense and is then
overridden with `np.inf` when EBIT is a positive number and the
absolute interest expense equals `0` (Python `None == 0` is false, so
a missing interest expense never triggers the override). -/
def sv_calculate_solvency (income_stmt balance_sheet : Option DF) :
    List (String × MVal) :=
  let td0 := sv_get_value balance_sheet ["Total Debt"] 0 false
  let total_debt :=
    if pdIsna td0 then
      let ltdR := sv_get_value balance_sheet ["Long Term Debt", "Long Term Debt Noncurrent"] 0 false
      let stdR := sv_get_value balance_sheet ["Current Debt", "Short Term Debt", "Current Debt And Capital Lease Obligation", "Short Term Borrowings"] 0 false
      let ltd : ℚ := match ltdR with | Cell.num q => q | _ => 0
      let std : ℚ := match stdR with | Cell.num q => q | _ => 0
      if 0 < ltd || 0 < std then Cell.num (ltd + std) else Cell.nanV
    else td0
  let total_equity := sv_get_value balance_sheet ["Stockholder Equity", "Total Stockholder Equity", "Total Equity Gross Minority Interest"] 0 true
  let ie := sv_solvency_ie income_stmt
  let ebit := sv_solvency_ebit income_stmt
  let absIe : Cell := match ie with | Cell.num q => Cell.num |q| | _ => Cell.noneV
  let ic0 := safe_division_s ebit absIe
  let ic : MVal :=
    match ebit, absIe with
    | Cell.num e, Cell.num a => if 0 < e && a == 0 then MVal.inf else ic0
    | _, _ => ic0
  [("Debt/Equity", safe_division_s total_debt total_equity),
   ("Interest Coverage", ic)]

/-! ## Scoring: analyzer.py StockAnalyzer.perform_scoring and
services/analysis_service.py AnalysisService._perform_scoring -/

/-- Result of a scoring run: overall rating string, per-metric rating
breakdown (the human-readable formatted value strings of the source
carry no decision logic and are not modelled), points earned and
points possible. -/
structure ScoreResult where
  overall : String
  breakdown : List (String × String)
  points : ℕ
  possible : ℕ
deriving DecidableEq, Repr

/-- `pd.notna` on a metric value. -/
def mNotna (v : MVal) : Bool := !mIsna v

/-- Python `v > t` on a metric value: NaN compares false, `np.inf`
exceeds every threshold. -/
def mGt (v : MVal) (t : ℚ) : Bool :=
  match v with
  | MVal.num q => decide (t < q)
  | MVal.inf => true
  | MVal.nanV => false

/-- Python `v < t` on a metric value. -/
def mLt (v : MVal) (t : ℚ) : Bool :=
  match v with
  | MVal.num q => decide (q < t)
  | MVal.inf => false
  | MVal.nanV => false

/-- Python `v >= t` on a metric value. -/
def mGe (v : MVal) (t : ℚ) : Bool :=
  match v with
  | MVal.num q => decide (t ≤ q)
  | MVal.inf => true
  | MVal.nanV => false

/-- Python `v <= t` on a metric value. -/
def mLe (v : MVal) (t : ℚ) : Bool :=
  match v with
  | MVal.num q => decide (q ≤ t)
  | MVal.inf => false
  | MVal.nanV => false

/-- One analyzer.py scoring rule worth up to 2 points, higher is
better, with STRICT comparisons (`>`); yields (rating, points added,
possible points added). -/
def stepHigher2 (v : MVal) (g y : ℚ) : String × ℕ × ℕ :=
  if mNotna v then
    if mGt v g then ("Green", 2, 2)
    else if mGt v y then ("Yellow", 1, 2)
    else ("Red", 0, 2)
  else ("N/A", 0, 0)

/-- One analyzer.py scoring rule worth up to 2 points, lower is
better, with STRICT comparisons (`<`). -/
def stepLower2 (v : MVal) (g y : ℚ) : String × ℕ × ℕ :=
  if mNotna v then
    if mLt v g then ("Green", 2, 2)
    else if mLt v y then ("Yellow", 1, 2)
    else ("Red", 0, 2)
  else ("N/A", 0, 0)

/-- One analyzer.py scoring rule worth 1 point (green only scores),
higher is better, strict comparisons. -/
def stepHigher1 (v : MVal) (g y : ℚ) : String × ℕ × ℕ :=
  if mNotna v then
    if mGt v g then ("Green", 1, 1)
    else if mGt v y then ("Yellow", 0, 1)
    else ("Red", 0, 1)
  else ("N/A", 0, 0)

/-- One analyzer.py scoring rule worth 1 point (green only scores),
lower is better, strict comparisons. -/
def stepLower1 (v : MVal) (g y : ℚ) : String × ℕ × ℕ :=
  if mNotna v then
    if mLt v g then ("Green", 1, 1)
    else if mLt v y then ("Yellow", 0, 1)
    else ("Red", 0, 1)
  else ("N/A", 0, 0)

/-- The final score calculation shared verbatim by
`StockAnalyzer.perform_scoring` and
`AnalysisService._perform_scoring`:
`points / possible_points >= 0.75` is Green (Strong), `>= 0.50` is
Yellow (Average), else Red (Weak); zero possible points is
"N/A (Insufficient Data)". -/
def overallFromPoints (pts poss : ℕ) : String :=
  if 0 < poss then
    if (3 : ℚ) / 4 ≤ (pts : ℚ) / (poss : ℚ) then "Green (Strong)"
    else if (1 : ℚ) / 2 ≤ (pts : ℚ) / (poss : ℚ) then "Yellow (Average)"
    else "Red (Weak)"
  else "N/A (Insufficient Data)"

/-- `StockAnalyzer.perform_scoring` on the current-metrics dictionary.
An empty dictionary short-circuits to plain "N/A" with no breakdown
(the `if not self.calculated_metrics.get('current')` guard).  All six
rules use strict comparisons; ROE, Net Margin and Debt/Equity are
worth 2 points with 1 point for Yellow, while Interest Coverage,
Current Ratio and P/E are worth 1 point with no points for Yellow. -/
def perform_scoring (metrics : List (String × MVal)) : ScoreResult :=
  if metrics.isEmpty then ⟨"N/A", [], 0, 0⟩
  else
    let rROE := stepHigher2 ((metrics.lookup "ROE").getD MVal.nanV) (15/100) (5/100)
    let rNM := stepHigher2 ((metrics.lookup "Net Margin").getD MVal.nanV) (10/100) (3/100)
    let rDE := stepLower2 ((metrics.lookup "Debt/Equity").getD MVal.nanV) (5/10) 1
    let rIC := stepHigher1 ((metrics.lookup "Interest Coverage").getD MVal.nanV) 5 2
    let rCR := stepHigher1 ((metrics.lookup "Current Ratio").getD MVal.nanV) (15/10) 1
    let rPE := stepLower1 ((metrics.lookup "P/E").getD MVal.nanV) 15 25
    let pts := rROE.2.1 + rNM.2.1 + rDE.2.1 + rIC.2.1 + rCR.2.1 + rPE.2.1
    let poss := rROE.2.2 + rNM.2.2 + rDE.2.2 + rIC.2.2 + rCR.2.2 + rPE.2.2
    ⟨overallFromPoints pts poss,
     [("ROE", rROE.1), ("Net Margin", rNM.1), ("Debt/Equity", rDE.1),
      ("Interest Coverage", rIC.1), ("Current Ratio", rCR.1), ("P/E Ratio", rPE.1)],
     pts, poss⟩

/-- `AnalysisService._perform_scoring.rate_metric`: rates one metric
value against a `{green, yellow}` threshold pair with INCLUSIVE
comparisons (`>=` when higher is better, `<=` when lower is better);
yields (rating, points added, possible points added).  `Option.none`
is a key absent from the metrics dictionary (`dict.get` returns
`None`); an invalid value adds nothing to the possible points. -/
def rate_metric (value : Option MVal) (green yellow : ℚ) (higherBetter : Bool) :
    String × ℕ × ℕ :=
  match value with
  | some v =>
    if mNotna v then
      if higherBetter then
        if mGe v green then ("Green", 2, 2)
        else if mGe v yellow then ("Yellow", 1, 2)
        else ("Red", 0, 2)
      else
        if mLe v green then ("Green", 2, 2)
        else if mLe v yellow then ("Yellow", 1, 2)
        else ("Red", 0, 2)
    else ("N/A", 0, 0)
  | Option.none => ("N/A", 0, 0)

/-- `AnalysisService._perform_scoring`: rates ROE, Net Margin,
Debt/Equity, Current Ratio and Interest Coverage with the module
threshold constants (P/E is commented out in the source) and derives
the overall rating; an empty metrics dictionary short-circuits to
"N/A (No Metrics)". -/
def sv_perform_scoring (metrics : List (String × MVal)) : ScoreResult :=
  if metrics.isEmpty then ⟨"N/A (No Metrics)", [], 0, 0⟩
  else
    let rROE := rate_metric (metrics.lookup "ROE") (15/100) (5/100) true
    let rNM := rate_metric (metrics.lookup "Net Margin") (10/100) (3/100) true
    let rDE := rate_metric (metrics.lookup "Debt/Equity") (6/10) (12/10) false
    let rCR := rate_metric (metrics.lookup "Current Ratio") (18/10) 1 true
    let rIC := rate_metric (metrics.lookup "Interest Coverage") 5 2 true
    let pts := rROE.2.1 + rNM.2.1 + rDE.2.1 + rCR.2.1 + rIC.2.1
    let poss := rROE.2.2 + rNM.2.2 + rDE.2.2 + rCR.2.2 + rIC.2.2
    ⟨overallFromPoints pts poss,
     [("ROE", rROE.1), ("Net Margin", rNM.1), ("Debt/Equity", rDE.1),
      ("Current Ratio", rCR.1), ("Interest Coverage", rIC.1)],
     pts, poss⟩

/-! ## Concrete tables used by the closed theorems -/

/-- A one-period balance sheet holding only Stockholder Equity = 50. -/
def bsEqOnly : DF := ⟨1, [("Stockholder Equity", [Cell.num 50])]⟩

/-- A one-period income statement holding only Net Income = 10. -/
def incNIOnly : DF := ⟨1, [("Net Income", [Cell.num 10])]⟩

/-- A one-period income statement holding only EBIT = 100 (no
Interest Expense row). -/
def incEbitOnly : DF := ⟨1, [("EBIT", [Cell.num 100])]⟩

/-- A one-period income statement with EBIT = 100 and an Interest
Expense row equal to exactly 0. -/
def incEbitZeroIE : DF := ⟨1, [("EBIT", [Cell.num 100]), ("Interest Expense", [Cell.num 0])]⟩

/-- A one-period income statement holding only Total Revenue = 100
(no Net Income row). -/
def incRevOnly : DF := ⟨1, [("Total Revenue", [Cell.num 100])]⟩

/-- A one-period balance sheet with Stockholder Equity = 50 and Total
Assets = 200. -/
def bsEqAssets : DF := ⟨1, [("Stockholder Equity", [Cell.num 50]), ("Total Assets", [Cell.num 200])]⟩

/-- A one-period balance sheet with Current Assets = 150 and Current
Liabilities = 100 and no Inventory row. -/
def bsNoInventory : DF := ⟨1, [("Current Assets", [Cell.num 150]), ("Current Liabilities", [Cell.num 100])]⟩

/-- A one-period income statement holding only Cost Of Revenue = 500. -/
def incCOGSOnly : DF := ⟨1, [("Cost Of Revenue", [Cell.num 500])]⟩

/-- A one-period table whose first equity synonym row holds an
unparseable string and whose second holds the number 5. -/
def dfStrFirst : DF := ⟨1, [("Stockholder Equity", [Cell.str Option.none]),
                            ("Total Stockholder Equity", [Cell.num 5])]⟩

/-- A two-period table with Revenue 100 (latest) and 90 (prior). -/
def dfTwoPeriods : DF := ⟨2, [("Total Revenue", [Cell.num 100, Cell.num 90])]⟩

/-- A one-period table containing only the row
"Total Stockholder Equity" = 1000 (the spec example for synonym
resolution). -/
def df1000 : DF := ⟨1, [("Total Stockholder Equity", [Cell.num 1000])]⟩

/-- A one-period income statement with Net Income = 10, Gross Profit
= 4 and an Invalid (negative) Total Revenue of -5. -/
def incNegRev : DF := ⟨1, [("Net Income", [Cell.num 10]), ("Gross Profit", [Cell.num 4]),
                           ("Total Revenue", [Cell.num (-5)])]⟩

/-- A one-period income statement with Net Income = 10 and Total
Revenue = 100. -/
def incNIRev : DF := ⟨1, [("Net Income", [Cell.num 10]), ("Total Revenue", [Cell.num 100])]⟩

/-- A two-period balance sheet whose Stockholder Equity is NaN in the
latest period and 50 in the prior period, with Total Assets = 200 in
both periods. -/
def bsPriorEquity : DF := ⟨2, [("Stockholder Equity", [Cell.nanV, Cell.num 50]),
                               ("Total Assets", [Cell.num 200, Cell.num 200])]⟩

/-- Whether a cell is a finite number. -/
def isNumC : Cell → Bool
  | Cell.num _ => true
  | _ => false

/-- Label `l` does not occur in the row index of `df?` (an absent
table has no labels). -/
def absentFrom (df? : Option DF) (l : String) : Bool :=
  match df? with
  | Option.none => true
  | some df => (lookupRow df l).isNone

/-- The value a synonym loop breaks with when it stops at a cell:
`None`/NaN cells break with NaN, numeric and parseable-string cells
break with the number. -/
def loopVal : Cell → Cell
  | Cell.noneV => Cell.nanV
  | Cell.nanV => Cell.nanV
  | Cell.num q => Cell.num q
  | Cell.str (some q) => Cell.num q
  | Cell.str Option.none => Cell.nanV

/-- The resolved value the resolvers produce for a located cell `c`:
the break value of the loop, with the negative-value rejection
applied. -/
def resolveCell (c : Cell) (allowNeg : Bool) : Cell :=
  match loopVal c with
  | Cell.num q => if !allowNeg && q < 0 then Cell.nanV else Cell.num q
  | c2 => c2

/-- A scorable metric carries no data in the metrics dictionary: the
key is absent or its value is NaN. -/
def scorableInvalid (metrics : List (String × MVal)) (k : String) : Prop :=
  metrics.lookup k = Option.none ∨ metrics.lookup k = some MVal.nanV

instance {ε α : Type} [DecidableEq ε] [DecidableEq α] : DecidableEq (Except ε α)
  | Except.ok x, Except.ok y =>
      if h : x = y then Decidable.isTrue (h ▸ rfl)
      else Decidable.isFalse (fun he => h (Except.ok.inj he))
  | Except.ok _, Except.error _ => Decidable.isFalse (fun he => Except.noConfusion he)
  | Except.error _, Except.ok _ => Decidable.isFalse (fun he => Except.noConfusion he)
  | Except.error x, Except.error y =>
      if h : x = y then Decidable.isTrue (h ▸ rfl)
      else Decidable.isFalse (fun he => h (Except.error.inj he))

/-! ## Helper lemmas -/

theorem mem_filterM {l : List (String × MVal)} {kv : String × MVal}
    (h : kv ∈ filterM l) : kv.2 ≠ MVal.nanV := by
  have hp := List.of_mem_filter h
  intro he
  rw [he] at hp
  simp [mIsna] at hp

theorem mem_filterC {l : List (String × Cell)} {kv : String × Cell}
    (h : kv ∈ filterC l) : pdIsna kv.2 = false := by
  have hp := List.of_mem_filter h
  simpa using hp

theorem sv_loop_ne_str (df : DF) (col : ℕ) (labels : List String) :
    ∀ p, sv_loop df col labels ≠ Cell.str p := by
  induction labels with
  | nil => intro p; simp [sv_loop]
  | cons l rest ih =>
    intro p
    simp only [sv_loop]
    split
    · exact ih p
    · split
      · simp
      · simp
      · simp
      · simp
      · exact ih p

theorem sv_get_value_ne_str (df? : Option DF) (labels : List String) (col : ℕ)
    (allowNeg : Bool) : ∀ p, sv_get_value df? labels col allowNeg ≠ Cell.str p := by
  intro p
  cases df? with
  | none => simp [sv_get_value]
  | some df =>
    simp only [sv_get_value]
    split
    · simp
    · split
      · split <;> simp
      · exact sv_loop_ne_str df col labels p

theorem ch_loop_val_ne_str (df : DF) (col : ℕ) (labels : List String) :
    ∀ p, (ch_loop df col labels).1 ≠ some (Cell.str p) := by
  induction labels with
  | nil => intro p; simp [ch_loop]
  | cons l rest ih =>
    intro p
    simp only [ch_loop]
    split
    · exact ih p
    · split
      · simp
      · simp
      · simp
      · simp
      · exact ih p

theorem ch_get_value_ne_str (df? : Option DF) (labels : List String) (col : ℕ)
    (allowNeg : Bool) : ∀ p, ch_get_value df? labels col allowNeg ≠ Cell.str p := by
  intro p
  cases df? with
  | none => simp [ch_get_value]
  | some df =>
    simp only [ch_get_value]
    split
    · simp
    · split
      · simp
      · simp
      · split <;> simp
      · rename_i c x heq
        intro hcon
        subst hcon
        exact ch_loop_val_ne_str df col labels p (by rw [heq])

theorem sv_loop_absent (df : DF) (col : ℕ) (labels : List String)
    (h : ∀ l ∈ labels, lookupRow df l = Option.none) :
    sv_loop df col labels = Cell.noneV := by
  induction labels with
  | nil => simp [sv_loop]
  | cons l rest ih =>
    simp only [sv_loop]
    rw [h l (by simp)]
    exact ih (fun l2 hl2 => h l2 (by simp [hl2]))

theorem sv_get_value_absent (df? : Option DF) (labels : List String) (col : ℕ)
    (allowNeg : Bool) (h : ∀ l ∈ labels, absentFrom df? l = true) :
    sv_get_value df? labels col allowNeg = Cell.noneV := by
  cases df? with
  | none => simp [sv_get_value]
  | some df =>
    have habs : sv_loop df col labels = Cell.noneV := by
      apply sv_loop_absent
      intro l hl
      have := h l hl
      simpa [absentFrom, Option.isNone_iff_eq_none] using this
    simp only [sv_get_value]
    split
    · rfl
    · rw [habs]

theorem cell_cases (c : Cell) :
    c = Cell.noneV ∨ c = Cell.nanV ∨ (∃ q, c = Cell.num q) ∨
      c = Cell.str Option.none ∨ ∃ q, c = Cell.str (some q) := by
  cases c with
  | noneV => exact Or.inl rfl
  | nanV => exact Or.inr (Or.inl rfl)
  | num q => exact Or.inr (Or.inr (Or.inl ⟨q, rfl⟩))
  | str p =>
    cases p with
    | none => exact Or.inr (Or.inr (Or.inr (Or.inl rfl)))
    | some q => exact Or.inr (Or.inr (Or.inr (Or.inr ⟨q, rfl⟩)))

theorem rate_metric_na (v : Option MVal) (g y : ℚ) (hb : Bool)
    (h : v = Option.none ∨ v = some MVal.nanV) :
    rate_metric v g y hb = ("N/A", 0, 0) := by
  rcases h with h | h <;> rw [h] <;> simp [rate_metric, mNotna, mIsna]

theorem safe_division_s_ne_inf (a b : Cell) : safe_division_s a b ≠ MVal.inf := by
  unfold safe_division_s
  split
  · simp
  · cases a <;> cases b <;> simp

theorem sv_solvency_ebit_cases (income_stmt : Option DF) :
    sv_solvency_ebit income_stmt = Cell.nanV ∨
      ∃ q, sv_solvency_ebit income_stmt = Cell.num q := by
  simp only [sv_solvency_ebit]
  split
  · split
    · right
      exact ⟨_, rfl⟩
    · left; rfl
  · rename_i h
    cases h4 : sv_get_value income_stmt ["EBIT", "Earnings Before Interest And Taxes"] 0 true with
    | noneV => rw [h4] at h; simp [pdIsna] at h
    | nanV => rw [h4] at h; simp [pdIsna] at h
    | num q => right; exact ⟨q, rfl⟩
    | str p => exact absurd h4 (sv_get_value_ne_str _ _ _ _ p)


/-! ## Claim theorems -/

/-- Claim C1, counterexample: in `StockAnalyzer.perform_scoring`
(analyzer.py), which uses strict comparisons, an ROE of exactly 0.15
is rated Yellow with 1 point (not Green with 2 points) and an ROE of
exactly 0.05 is rated Red with 0 points (not Yellow with 1 point),
refuting the claim that a value exactly equal to the Green (resp.
Yellow) threshold is rated Green (resp. Yellow) with the
corresponding points in every cited scoring implementation. -/
theorem C1_counterexample :
    (perform_scoring [("ROE", MVal.num (15/100))]).breakdown.lookup "ROE" = some "Yellow"
  ∧ (perform_scoring [("ROE", MVal.num (15/100))]).points = 1
  ∧ (perform_scoring [("ROE", MVal.num (5/100))]).breakdown.lookup "ROE" = some "Red"
  ∧ (perform_scoring [("ROE", MVal.num (5/100))]).points = 0 := by
  refine ⟨?_, ?_, ?_, ?_⟩ <;>
    (simp [perform_scoring, List.lookup, stepHigher2, stepLower2, stepHigher1, stepLower1,
       mNotna, mIsna, mGt, mLt, overallFromPoints]
     try norm_num)

/-- Claim C1, amended: in the services implementation
(`AnalysisService._perform_scoring.rate_metric`) every scorable ratio
treats a value exactly equal to the Green threshold as Green with the
full 2 points and a value exactly equal to the Yellow threshold as
Yellow with 1 point, in both threshold directions; in particular ROE
= 0.15 exactly is rated Green with 2 points and ROE = 0.05 exactly is
rated Yellow with 1 point there.  The analyzer.py implementation
instead uses strict comparisons, so exact-threshold values fall to
the next tier down (see the counterexample). -/
theorem C1_theorem :
    (∀ g y : ℚ, rate_metric (some (MVal.num g)) g y true = ("Green", 2, 2))
  ∧ (∀ g y : ℚ, y < g → rate_metric (some (MVal.num y)) g y true = ("Yellow", 1, 2))
  ∧ (∀ g y : ℚ, rate_metric (some (MVal.num g)) g y false = ("Green", 2, 2))
  ∧ (∀ g y : ℚ, g < y → rate_metric (some (MVal.num y)) g y false = ("Yellow", 1, 2))
  ∧ (sv_perform_scoring [("ROE", MVal.num (15/100))]).breakdown.lookup "ROE" = some "Green"
  ∧ (sv_perform_scoring [("ROE", MVal.num (15/100))]).points = 2
  ∧ (sv_perform_scoring [("ROE", MVal.num (5/100))]).breakdown.lookup "ROE" = some "Yellow"
  ∧ (sv_perform_scoring [("ROE", MVal.num (5/100))]).points = 1 := by
  refine ⟨?_, ?_, ?_, ?_, ?_, ?_, ?_, ?_⟩
  · intro g y
    simp [rate_metric, mNotna, mIsna, mGe]
  · intro g y h
    simp [rate_metric, mNotna, mIsna, mGe, h.not_le]
  · intro g y
    simp [rate_metric, mNotna, mIsna, mLe]
  · intro g y h
    simp [rate_metric, mNotna, mIsna, mLe, h.not_le]
  all_goals
    simp [sv_perform_scoring, rate_metric, mNotna, mIsna, mGe, mLe, overallFromPoints, List.lookup]
    try norm_num

/-- Claim C1, witness for the amended theorem: the Yellow-boundary
case applied at the concrete thresholds Green = 1 and Yellow = 0. -/
theorem C1_witness :
    rate_metric (some (MVal.num 0)) 1 0 true = ("Yellow", 1, 2) :=
  C1_theorem.2.1 1 0 (by norm_num)

/-- Claim C2, counterexample: in `metrics.calculate_solvency_metrics`
(metrics.py), with the single Total Debt row absent and both debt
component rows absent from the balance sheet, the missing components
default to 0, so Total Debt becomes 0 and Debt/Equity is reported as
the number 0 rather than "no data". -/
theorem C2_counterexample :
    inIndex bsEqOnly "Total Debt" = false
  ∧ inIndex bsEqOnly "Long Term Debt" = false
  ∧ inIndex bsEqOnly "Current Debt" = false
  ∧ inIndex bsEqOnly "Short Term Debt" = false
  ∧ calculate_solvency_metrics (some bsEqOnly) (some incNIOnly) =
      Except.ok [("Debt/Equity", MVal.num 0), ("Interest Coverage", MVal.inf)] := by
  refine ⟨by decide, by decide, by decide, by decide, ?_⟩
  simp [calculate_solvency_metrics, calc_solvency_raw, DF.isEmpty, DF.colS, bsEqOnly, incNIOnly,
    get_metric, pdIsna, safe_division_m, denomBad, pyAdd, pyAbs, cellGt0, cellNe0,
    filterM, mIsna, List.lookup, Except.map, bind, Except.bind]
  try norm_num [filterM, mIsna]

/-- Claim C2, amended: in the services implementation
(`MetricsService._calculate_solvency`), when the Total Debt row and
every long-term and short-term debt component row are absent from the
balance sheet, Total Debt is reset to NaN and Debt/Equity is "no
data" (NaN), never zero.  In metrics.py the absent components default
to 0 and Debt/Equity becomes 0 (see the counterexample). -/
theorem C2_theorem (income_stmt balance_sheet : Option DF)
    (h : ∀ l ∈ ["Total Debt", "Long Term Debt", "Long Term Debt Noncurrent", "Current Debt",
                "Short Term Debt", "Current Debt And Capital Lease Obligation",
                "Short Term Borrowings"], absentFrom balance_sheet l = true) :
    (sv_calculate_solvency income_stmt balance_sheet).lookup "Debt/Equity" = some MVal.nanV := by
  have h1 : sv_get_value balance_sheet ["Total Debt"] 0 false = Cell.noneV := by
    apply sv_get_value_absent
    intro l hl
    apply h
    simp at hl
    simp [hl]
  have h2 : sv_get_value balance_sheet ["Long Term Debt", "Long Term Debt Noncurrent"] 0 false = Cell.noneV := by
    apply sv_get_value_absent
    intro l hl
    apply h
    simp at hl
    rcases hl with rfl | rfl <;> simp
  have h3 : sv_get_value balance_sheet ["Current Debt", "Short Term Debt",
      "Current Debt And Capital Lease Obligation", "Short Term Borrowings"] 0 false = Cell.noneV := by
    apply sv_get_value_absent
    intro l hl
    apply h
    simp at hl
    rcases hl with rfl | rfl | rfl | rfl <;> simp
  simp [sv_calculate_solvency, h1, h2, h3, pdIsna, safe_division_s, List.lookup]

/-- Claim C2, witness: the amended theorem applied to a balance sheet
holding only Stockholder Equity. -/
theorem C2_witness :
    (sv_calculate_solvency (some incNIOnly) (some bsEqOnly)).lookup "Debt/Equity" = some MVal.nanV :=
  C2_theorem (some incNIOnly) (some bsEqOnly) (by decide)

/-- Claim C3, counterexample: in `metrics.calculate_solvency_metrics`
(metrics.py), an income statement with EBIT = 100 and NO Interest
Expense row still yields an infinite Interest Coverage (the
`else np.inf if ebit > 0` branch fires when the interest expense is
missing, not only when it is exactly zero), refuting the claim that
the infinite result arises only when interest expense resolves to
exactly zero. -/
theorem C3_counterexample :
    inIndex incEbitOnly "Interest Expense" = false
  ∧ calculate_solvency_metrics (some bsEqOnly) (some incEbitOnly) =
      Except.ok [("Debt/Equity", MVal.num 0), ("Interest Coverage", MVal.inf)] := by
  refine ⟨by decide, ?_⟩
  simp [calculate_solvency_metrics, calc_solvency_raw, DF.isEmpty, DF.colS, bsEqOnly, incEbitOnly,
    get_metric, pdIsna, safe_division_m, denomBad, pyAdd, pyAbs, cellGt0, cellNe0,
    filterM, mIsna, List.lookup, Except.map, bind, Except.bind]
  try norm_num [filterM, mIsna]

/-- Claim C3, amended: in the services implementation
(`MetricsService._calculate_solvency`), Interest Coverage is infinite
exactly when the resolved EBIT is a positive number and the resolved
interest expense is exactly zero — a missing interest expense never
produces the infinite result there — and EBIT = 100 with
InterestExpense = 0 yields the infinite result in both
implementations.  In metrics.py, however, the infinite result also
arises when interest expense is missing and EBIT is positive (see the
counterexample). -/
theorem C3_theorem :
    (∀ income_stmt balance_sheet : Option DF,
        (sv_calculate_solvency income_stmt balance_sheet).lookup "Interest Coverage" =
            some MVal.inf ↔
          (∃ e : ℚ, sv_solvency_ebit income_stmt = Cell.num e ∧ 0 < e) ∧
            sv_solvency_ie income_stmt = Cell.num 0)
  ∧ sv_calculate_solvency (some incEbitZeroIE) (some bsEqOnly) =
      [("Debt/Equity", MVal.nanV), ("Interest Coverage", MVal.inf)]
  ∧ calculate_solvency_metrics (some bsEqOnly) (some incEbitZeroIE) =
      Except.ok [("Debt/Equity", MVal.num 0), ("Interest Coverage", MVal.inf)] := by
  refine ⟨?_, ?_, ?_⟩
  · intro income_stmt balance_sheet
    rcases sv_solvency_ebit_cases income_stmt with hEB | ⟨e, hEB⟩
    · simp [sv_calculate_solvency, hEB, safe_division_s, pdIsna, denomBad, List.lookup]
    · cases hIE : sv_solvency_ie income_stmt with
      | noneV =>
        simp [sv_calculate_solvency, hEB, hIE, safe_division_s, pdIsna, denomBad, List.lookup]
      | nanV =>
        simp [sv_calculate_solvency, hEB, hIE, safe_division_s, pdIsna, denomBad, List.lookup]
      | num q =>
        by_cases h0 : 0 < e <;> by_cases hq : q = 0 <;>
          simp [sv_calculate_solvency, hEB, hIE, safe_division_s, pdIsna, denomBad,
            List.lookup, h0, hq, abs_eq_zero]
      | str p =>
        simp only [sv_solvency_ie] at hIE
        exact absurd hIE (sv_get_value_ne_str _ _ _ _ p)
  · simp [sv_calculate_solvency, sv_solvency_ebit, sv_solvency_ie, sv_get_value, sv_loop,
      lookupRow, DF.isEmpty, incEbitZeroIE, bsEqOnly, pdIsna, safe_division_s, denomBad,
      List.lookup]
    try norm_num
  · simp [calculate_solvency_metrics, calc_solvency_raw, DF.isEmpty, DF.colS, bsEqOnly,
      incEbitZeroIE, get_metric, pdIsna, safe_division_m, denomBad, pyAdd, pyAbs, cellGt0,
      cellNe0, filterM, mIsna, List.lookup, Except.map, bind, Except.bind]
    try norm_num [filterM, mIsna]

/-- Claim C3, witness: the characterization applied to the concrete
income statement with EBIT = 100 and Interest Expense = 0. -/
theorem C3_witness :
    (sv_calculate_solvency (some incEbitZeroIE) (some bsEqOnly)).lookup "Interest Coverage" =
      some MVal.inf :=
  (C3_theorem.1 (some incEbitZeroIE) (some bsEqOnly)).mpr
    ⟨⟨100, by simp [sv_solvency_ebit, sv_solvency_ie, sv_get_value, sv_loop, lookupRow,
        DF.isEmpty, incEbitZeroIE, pdIsna, List.lookup], by norm_num⟩,
      by simp [sv_solvency_ie, sv_get_value, sv_loop, lookupRow, DF.isEmpty, incEbitZeroIE,
        pdIsna, List.lookup]⟩

/-- Claim C4, counterexample: in
`metrics.calculate_profitability_metrics` (metrics.py), Net Income is
fetched with `default=0`, so with Net Income absent from the income
statement and Total Revenue, Stockholder Equity and Total Assets
present, ROE, ROA and Net Margin are all reported as the number 0
instead of "no data", refuting the claim for the cited metrics.py
calculator. -/
theorem C4_counterexample :
    inIndex incRevOnly "Net Income" = false
  ∧ calculate_profitability_metrics (some incRevOnly) (some bsEqAssets) =
      Except.ok [("ROE", MVal.num 0), ("ROA", MVal.num 0), ("Net Margin", MVal.num 0)] := by
  refine ⟨by decide, ?_⟩
  simp [calculate_profitability_metrics, calc_profitability_raw, DF.isEmpty, DF.colS,
    incRevOnly, bsEqAssets, get_metric, pdIsna, safe_division_m, denomBad, pyAdd, pyDiv2,
    avgIfBoth, filterM, mIsna, List.lookup, Except.map, bind, Except.bind]
  try norm_num [filterM, mIsna]

theorem sv_get_average_absent (df? : Option DF) (labels : List String) (allowNeg : Bool)
    (h : ∀ l ∈ labels, absentFrom df? l = true) :
    sv_get_average df? labels allowNeg = Cell.noneV := by
  have h0 := sv_get_value_absent df? labels 0 allowNeg h
  have h1 := sv_get_value_absent df? labels 1 allowNeg h
  cases df? with
  | none => simpa using h0
  | some df =>
    simp only [sv_get_average, h0, h1]
    split
    · rfl
    · simp [pdIsna]

/-- Claim C4, amended: in the services calculators every Missing or
Invalid required statement concept propagates to its dependent ratios
as "no data" (NaN), never coerced to zero, with the sole documented
Quick-Ratio inventory exception: a missing Net Income voids ROE, ROA
and Net Margin; a missing Revenue voids Gross Margin, Net Margin and
Asset Turnover; a missing Gross Profit voids Gross Margin; missing
equity voids ROE and Debt/Equity; missing Total Assets voids ROA and
Asset Turnover; missing Current Assets or Current Liabilities voids
Current Ratio and Quick Ratio; a missing COGS voids Inventory
Turnover; a missing interest expense voids Interest Coverage; both
debt components missing void Debt/Equity; and an Invalid (negative)
Revenue voids Gross Margin and Net Margin.  The metrics.py
profitability calculator instead coerces a missing Net Income to 0
(see the counterexample). -/
theorem C4_theorem :
    (∀ income_stmt balance_sheet : Option DF,
      (∀ l ∈ ["Net Income", "NetIncome"], absentFrom income_stmt l = true) →
      (sv_calculate_profitability income_stmt balance_sheet).lookup "ROE" = some MVal.nanV
    ∧ (sv_calculate_profitability income_stmt balance_sheet).lookup "ROA" = some MVal.nanV
    ∧ (sv_calculate_profitability income_stmt balance_sheet).lookup "Net Margin" = some MVal.nanV)
  ∧ (∀ income_stmt balance_sheet : Option DF,
      (∀ l ∈ ["Total Revenue", "Revenue", "Total Sales"], absentFrom income_stmt l = true) →
      (sv_calculate_profitability income_stmt balance_sheet).lookup "Gross Margin" = some MVal.nanV
    ∧ (sv_calculate_profitability income_stmt balance_sheet).lookup "Net Margin" = some MVal.nanV
    ∧ (sv_calculate_efficiency income_stmt balance_sheet).lookup "Asset Turnover" = some MVal.nanV)
  ∧ (∀ income_stmt balance_sheet : Option DF,
      (∀ l ∈ ["Gross Profit", "GrossProfit"], absentFrom income_stmt l = true) →
      (sv_calculate_profitability income_stmt balance_sheet).lookup "Gross Margin" = some MVal.nanV)
  ∧ (∀ income_stmt balance_sheet : Option DF,
      (∀ l ∈ ["Stockholder Equity", "Total Stockholder Equity",
              "Total Equity Gross Minority Interest"], absentFrom balance_sheet l = true) →
      (sv_calculate_profitability income_stmt balance_sheet).lookup "ROE" = some MVal.nanV
    ∧ (sv_calculate_solvency income_stmt balance_sheet).lookup "Debt/Equity" = some MVal.nanV)
  ∧ (∀ income_stmt balance_sheet : Option DF,
      (∀ l ∈ ["Total Assets", "TotalAssets"], absentFrom balance_sheet l = true) →
      (sv_calculate_profitability income_stmt balance_sheet).lookup "ROA" = some MVal.nanV
    ∧ (sv_calculate_efficiency income_stmt balance_sheet).lookup "Asset Turnover" = some MVal.nanV)
  ∧ (∀ balance_sheet : Option DF,
      (∀ l ∈ ["Current Assets", "Total Current Assets"], absentFrom balance_sheet l = true) →
      (sv_calculate_liquidity balance_sheet).lookup "Current Ratio" = some MVal.nanV
    ∧ (sv_calculate_liquidity balance_sheet).lookup "Quick Ratio" = some MVal.nanV)
  ∧ (∀ balance_sheet : Option DF,
      (∀ l ∈ ["Current Liabilities", "Total Current Liabilities"],
          absentFrom balance_sheet l = true) →
      (sv_calculate_liquidity balance_sheet).lookup "Current Ratio" = some MVal.nanV
    ∧ (sv_calculate_liquidity balance_sheet).lookup "Quick Ratio" = some MVal.nanV)
  ∧ (∀ income_stmt balance_sheet : Option DF,
      (∀ l ∈ ["Cost Of Revenue", "Cost of Goods Sold", "Cost Of Goods And Services Sold"],
          absentFrom income_stmt l = true) →
      (sv_calculate_efficiency income_stmt balance_sheet).lookup "Inventory Turnover" =
        some MVal.nanV)
  ∧ (∀ income_stmt balance_sheet : Option DF,
      (∀ l ∈ ["Interest Expense", "Interest Expense Net"], absentFrom income_stmt l = true) →
      (sv_calculate_solvency income_stmt balance_sheet).lookup "Interest Coverage" =
        some MVal.nanV)
  ∧ (∀ income_stmt balance_sheet : Option DF,
      (∀ l ∈ ["Total Debt", "Long Term Debt", "Long Term Debt Noncurrent", "Current Debt",
              "Short Term Debt", "Current Debt And Capital Lease Obligation",
              "Short Term Borrowings"], absentFrom balance_sheet l = true) →
      (sv_calculate_solvency income_stmt balance_sheet).lookup "Debt/Equity" = some MVal.nanV)
  ∧ ((sv_calculate_profitability (some incNegRev) Option.none).lookup "Gross Margin" =
        some MVal.nanV
    ∧ (sv_calculate_profitability (some incNegRev) Option.none).lookup "Net Margin" =
        some MVal.nanV) := by
  refine ⟨?_, ?_, ?_, ?_, ?_, ?_, ?_, ?_, ?_, ?_, ?_⟩
  · intro income_stmt balance_sheet h
    have hni : sv_get_value income_stmt ["Net Income", "NetIncome"] 0 true = Cell.noneV :=
      sv_get_value_absent _ _ _ _ h
    refine ⟨?_, ?_, ?_⟩ <;>
      simp [sv_calculate_profitability, hni, safe_division_s, pdIsna, denomBad, List.lookup]
  · intro income_stmt balance_sheet h
    have hrev : sv_get_value income_stmt ["Total Revenue", "Revenue", "Total Sales"] 0 false =
        Cell.noneV := sv_get_value_absent _ _ _ _ h
    refine ⟨?_, ?_, ?_⟩ <;>
      simp [sv_calculate_profitability, sv_calculate_efficiency, hrev, safe_division_s,
        pdIsna, denomBad, List.lookup]
  · intro income_stmt balance_sheet h
    have hgp : sv_get_value income_stmt ["Gross Profit", "GrossProfit"] 0 true = Cell.noneV :=
      sv_get_value_absent _ _ _ _ h
    simp [sv_calculate_profitability, hgp, safe_division_s, pdIsna, denomBad, List.lookup]
  · intro income_stmt balance_sheet h
    have havg : sv_get_average balance_sheet ["Stockholder Equity", "Total Stockholder Equity",
        "Total Equity Gross Minority Interest"] true = Cell.noneV :=
      sv_get_average_absent _ _ _ h
    have heq : sv_get_value balance_sheet ["Stockholder Equity", "Total Stockholder Equity",
        "Total Equity Gross Minority Interest"] 0 true = Cell.noneV :=
      sv_get_value_absent _ _ _ _ h
    refine ⟨?_, ?_⟩
    · simp [sv_calculate_profitability, havg, safe_division_s, pdIsna, denomBad, List.lookup]
    · simp [sv_calculate_solvency, heq, safe_division_s, pdIsna, denomBad, List.lookup]
  · intro income_stmt balance_sheet h
    have havg : sv_get_average balance_sheet ["Total Assets", "TotalAssets"] false =
        Cell.noneV := sv_get_average_absent _ _ _ h
    refine ⟨?_, ?_⟩ <;>
      simp [sv_calculate_profitability, sv_calculate_efficiency, havg, safe_division_s,
        pdIsna, denomBad, List.lookup]
  · intro balance_sheet h
    have hca : sv_get_value balance_sheet ["Current Assets", "Total Current Assets"] 0 false =
        Cell.noneV := sv_get_value_absent _ _ _ _ h
    refine ⟨?_, ?_⟩ <;>
      simp [sv_calculate_liquidity, hca, safe_division_s, pdIsna, denomBad, List.lookup]
  · intro balance_sheet h
    have hcl : sv_get_value balance_sheet ["Current Liabilities", "Total Current Liabilities"]
        0 false = Cell.noneV := sv_get_value_absent _ _ _ _ h
    refine ⟨?_, ?_⟩ <;>
      simp [sv_calculate_liquidity, hcl, safe_division_s, pdIsna, denomBad, List.lookup]
  · intro income_stmt balance_sheet h
    have hcogs : sv_get_value income_stmt ["Cost Of Revenue", "Cost of Goods Sold",
        "Cost Of Goods And Services Sold"] 0 false = Cell.noneV :=
      sv_get_value_absent _ _ _ _ h
    simp [sv_calculate_efficiency, hcogs, safe_division_s, pdIsna, denomBad, List.lookup]
  · intro income_stmt balance_sheet h
    have hie : sv_solvency_ie income_stmt = Cell.noneV := by
      simpa [sv_solvency_ie] using
        sv_get_value_absent income_stmt ["Interest Expense", "Interest Expense Net"] 0 true h
    rcases sv_solvency_ebit_cases income_stmt with hEB | ⟨e, hEB⟩ <;>
      simp [sv_calculate_solvency, hie, hEB, safe_division_s, pdIsna, denomBad, List.lookup]
  · intro income_stmt balance_sheet h
    have h1 : sv_get_value balance_sheet ["Total Debt"] 0 false = Cell.noneV := by
      apply sv_get_value_absent
      intro l hl
      apply h
      simp at hl
      simp [hl]
    have h2 : sv_get_value balance_sheet ["Long Term Debt", "Long Term Debt Noncurrent"]
        0 false = Cell.noneV := by
      apply sv_get_value_absent
      intro l hl
      apply h
      simp at hl
      rcases hl with rfl | rfl <;> simp
    have h3 : sv_get_value balance_sheet ["Current Debt", "Short Term Debt",
        "Current Debt And Capital Lease Obligation", "Short Term Borrowings"] 0 false =
        Cell.noneV := by
      apply sv_get_value_absent
      intro l hl
      apply h
      simp at hl
      rcases hl with rfl | rfl | rfl | rfl <;> simp
    simp [sv_calculate_solvency, h1, h2, h3, pdIsna, safe_division_s, List.lookup]
  · refine ⟨?_, ?_⟩ <;>
      simp [sv_calculate_profitability, sv_get_value, sv_get_average, sv_loop, lookupRow,
        DF.isEmpty, incNegRev, pdIsna, safe_division_s, denomBad, List.lookup, List.getD]

/-- Claim C4, witness: the missing-Net-Income case of the amended
theorem applied to an income statement holding only Total Revenue. -/
theorem C4_witness :
    (sv_calculate_profitability (some incRevOnly) (some bsEqAssets)).lookup "ROE" =
      some MVal.nanV :=
  (C4_theorem.1 (some incRevOnly) (some bsEqAssets) (by decide)).1

/-- Claim C5, counterexample: `metrics.safe_division` (metrics.py)
checks only for `None`/NaN and a zero denominator; dividing an
unparseable string by 2 reaches the bare Python division and raises
`TypeError` instead of returning "no data", refuting "never raises"
for the cited metrics.py implementation. -/
theorem C5_counterexample :
    safe_division_m (Cell.str Option.none) (Cell.num 2) = Except.error "TypeError" := by
  simp [safe_division_m, pdIsna, denomBad]

/-- Claim C5, amended: no safe-division variant ever returns an
infinite value; the helpers version (`calculation_helpers
.safe_division`) and the service version
(`metrics_service._safe_division`) return "no data" (NaN) whenever
the denominator is zero or either operand is missing or non-numeric,
and they never raise (they are total); the metrics.py version also
returns "no data" for missing operands and a missing or zero
denominator, but raises `TypeError` on a non-numeric operand (see the
counterexample). -/
theorem C5_theorem :
    (∀ a b : Cell, safe_division_h a b ≠ MVal.inf ∧ safe_division_s a b ≠ MVal.inf ∧
        ∀ v, safe_division_m a b = Except.ok v → v ≠ MVal.inf)
  ∧ (∀ a b : Cell,
        pdIsna a = true ∨ pdIsna b = true ∨ floatOf a = Option.none ∨
          floatOf b = Option.none ∨ floatOf b = some 0 →
        safe_division_h a b = MVal.nanV)
  ∧ (∀ a b : Cell,
        pdIsna a = true ∨ pdIsna b = true ∨ isNumC a = false ∨ isNumC b = false ∨
          b = Cell.num 0 →
        safe_division_s a b = MVal.nanV)
  ∧ (∀ a b : Cell, pdIsna a = true ∨ pdIsna b = true ∨ b = Cell.num 0 →
        safe_division_m a b = Except.ok MVal.nanV) := by
  refine ⟨?_, ?_, ?_, ?_⟩
  · intro a b
    refine ⟨?_, safe_division_s_ne_inf a b, ?_⟩
    · unfold safe_division_h
      split
      · simp
      · cases hfa : floatOf a with
        | none => simp
        | some x =>
          cases hfb : floatOf b with
          | none => simp
          | some y => split <;> split <;> simp
    · intro v hv
      unfold safe_division_m at hv
      split at hv
      · simp at hv
        subst hv
        simp
      · split at hv
        · simp at hv
          subst hv
          simp
        · split at hv
          · simp at hv
            subst hv
            simp
          · simp at hv
  · intro a b h
    rcases cell_cases a with rfl | rfl | ⟨x, rfl⟩ | rfl | ⟨x, rfl⟩ <;>
      rcases cell_cases b with rfl | rfl | ⟨y, rfl⟩ | rfl | ⟨y, rfl⟩ <;>
      rcases h with h | h | h | h | h <;>
      simp_all [safe_division_h, pdIsna, floatOf]
  · intro a b h
    rcases h with h | h | h | h | h <;> cases a <;> cases b <;>
      simp_all [safe_division_s, pdIsna, isNumC, denomBad]
  · intro a b h
    rcases h with h | h | h <;> cases a <;> cases b <;>
      simp_all [safe_division_m, pdIsna, denomBad]

/-- Claim C5, witness: the metrics.py zero-denominator case of the
amended theorem at 1 / 0. -/
theorem C5_witness :
    safe_division_m (Cell.num 1) (Cell.num 0) = Except.ok MVal.nanV :=
  C5_theorem.2.2.2 (Cell.num 1) (Cell.num 0) (Or.inr (Or.inr rfl))

/-- Claim C6: with Inventory absent from the balance sheet, Current
Assets = 150 and Current Liabilities = 100, the Quick Ratio is 1.5 in
both implementations (Inventory treated as exactly 0), while the
Inventory Turnover for the same balance sheet and COGS = 500 is "no
data" in both implementations (the entry is filtered out of the
metrics.py result and NaN in the service result), not 0 and not
infinity. -/
theorem C6_theorem :
    inIndex bsNoInventory "Inventory" = false
  ∧ inIndex bsNoInventory "Inventories" = false
  ∧ calculate_liquidity_metrics (some bsNoInventory) =
      Except.ok [("Current Ratio", MVal.num (3/2)), ("Quick Ratio", MVal.num (3/2))]
  ∧ calculate_efficiency_metrics (some incCOGSOnly) (some bsNoInventory) = Except.ok []
  ∧ sv_calculate_liquidity (some bsNoInventory) =
      [("Current Ratio", MVal.num (3/2)), ("Quick Ratio", MVal.num (3/2))]
  ∧ sv_calculate_efficiency (some incCOGSOnly) (some bsNoInventory) =
      [("Asset Turnover", MVal.nanV), ("Inventory Turnover", MVal.nanV)] := by
  refine ⟨by decide, by decide, ?_, ?_, ?_, ?_⟩
  · simp [calculate_liquidity_metrics, calc_liquidity_raw, DF.isEmpty, DF.colS, bsNoInventory,
      get_metric, pdIsna, safe_division_m, denomBad, pySub, filterM, mIsna, List.lookup,
      Except.map, bind, Except.bind]
    try norm_num [filterM, mIsna]
  · simp [calculate_efficiency_metrics, calc_efficiency_raw, DF.isEmpty, DF.colS, incCOGSOnly,
      bsNoInventory, get_metric, pdIsna, safe_division_m, denomBad, pyAdd, pyDiv2, avgIfBoth,
      filterM, mIsna, List.lookup, Except.map, bind, Except.bind]
    try norm_num [filterM, mIsna]
  · simp [sv_calculate_liquidity, sv_get_value, sv_loop, lookupRow, DF.isEmpty, bsNoInventory,
      pdIsna, safe_division_s, denomBad, List.lookup]
    try norm_num
  · simp [sv_calculate_efficiency, sv_get_value, sv_get_average, sv_loop, lookupRow, DF.isEmpty,
      incCOGSOnly, bsNoInventory, pdIsna, safe_division_s, denomBad, List.lookup]
    try norm_num

theorem ch_get_value_short (df : DF) (labels : List String) (allowNeg : Bool)
    (h : df.ncols < 2) : ch_get_value (some df) labels 1 allowNeg = Cell.noneV := by
  have h2 : df.ncols ≤ 1 := by omega
  simp [ch_get_value, h2]

theorem sv_get_value_short (df : DF) (labels : List String) (allowNeg : Bool)
    (h : df.ncols < 2) : sv_get_value (some df) labels 1 allowNeg = Cell.noneV := by
  have h2 : df.ncols ≤ 1 := by omega
  simp [sv_get_value, h2]

/-- Claim C7, amended: for every table and synonym list, the two
resolveAverage implementations — `get_average_value_from_df`
(calculation_helpers) and `_get_average_value_from_df`
(metrics_service) — return the arithmetic mean of the period-0 and
period-1 resolved values when both are numbers, return the single
resolved value unchanged when exactly one of the two periods resolves
to a number, and return a missing value (the Python `None` or NaN)
when neither period resolves.  The inline averaging of the metrics.py
calculators agrees when both periods are numbers or only the latest
is, but returns the latest (missing) value whenever the latest period
is missing, even if the prior period resolves to a number (see the
counterexample). -/
theorem C7_theorem (df? : Option DF) (labels : List String) (allowNeg : Bool) :
    ((∀ a b : ℚ, ch_get_value df? labels 0 allowNeg = Cell.num a →
        ch_get_value df? labels 1 allowNeg = Cell.num b →
        ch_get_average df? labels allowNeg = Cell.num ((a + b) / 2))
  ∧ (∀ a : ℚ, ch_get_value df? labels 0 allowNeg = Cell.num a →
        isNumC (ch_get_value df? labels 1 allowNeg) = false →
        ch_get_average df? labels allowNeg = Cell.num a)
  ∧ (∀ b : ℚ, isNumC (ch_get_value df? labels 0 allowNeg) = false →
        ch_get_value df? labels 1 allowNeg = Cell.num b →
        ch_get_average df? labels allowNeg = Cell.num b)
  ∧ (isNumC (ch_get_value df? labels 0 allowNeg) = false →
        isNumC (ch_get_value df? labels 1 allowNeg) = false →
        (ch_get_average df? labels allowNeg = Cell.noneV ∨
          ch_get_average df? labels allowNeg = Cell.nanV)))
  ∧ ((∀ a b : ℚ, sv_get_value df? labels 0 allowNeg = Cell.num a →
        sv_get_value df? labels 1 allowNeg = Cell.num b →
        sv_get_average df? labels allowNeg = Cell.num ((a + b) / 2))
  ∧ (∀ a : ℚ, sv_get_value df? labels 0 allowNeg = Cell.num a →
        isNumC (sv_get_value df? labels 1 allowNeg) = false →
        sv_get_average df? labels allowNeg = Cell.num a)
  ∧ (∀ b : ℚ, isNumC (sv_get_value df? labels 0 allowNeg) = false →
        sv_get_value df? labels 1 allowNeg = Cell.num b →
        sv_get_average df? labels allowNeg = Cell.num b)
  ∧ (isNumC (sv_get_value df? labels 0 allowNeg) = false →
        isNumC (sv_get_value df? labels 1 allowNeg) = false →
        (sv_get_average df? labels allowNeg = Cell.noneV ∨
          sv_get_average df? labels allowNeg = Cell.nanV)))
  ∧ ((∀ a b : ℚ, avgIfBoth (Cell.num a) (Cell.num b) = Except.ok (Cell.num ((a + b) / 2)))
  ∧ (∀ a : ℚ, ∀ p : Cell, pdIsna p = true → avgIfBoth (Cell.num a) p = Except.ok (Cell.num a))
  ∧ (∀ l p : Cell, pdIsna l = true → avgIfBoth l p = Except.ok l)) := by
  refine ⟨?_, ?_, ?_⟩
  · cases df? with
    | none => refine ⟨?_, ?_, ?_, ?_⟩ <;> simp [ch_get_value, ch_get_average, isNumC]
    | some df =>
      by_cases hc : df.ncols < 2
      · have h1 : ch_get_value (some df) labels 1 allowNeg = Cell.noneV :=
          ch_get_value_short df labels allowNeg hc
        have havg : ch_get_average (some df) labels allowNeg =
            ch_get_value (some df) labels 0 allowNeg := by
          simp [ch_get_average, hc]
        refine ⟨?_, ?_, ?_, ?_⟩
        · intro a b h0 hb
          rw [h1] at hb
          cases hb
        · intro a h0 hb
          rw [havg, h0]
        · intro b h0 hb
          rw [h1] at hb
          cases hb
        · intro h0 hb
          rw [havg]
          rcases cell_cases (ch_get_value (some df) labels 0 allowNeg) with
            hv | hv | ⟨q, hv⟩ | hv | ⟨q, hv⟩
          · exact Or.inl hv
          · exact Or.inr hv
          · rw [hv] at h0; simp [isNumC] at h0
          · exact absurd hv (ch_get_value_ne_str _ _ _ _ _)
          · exact absurd hv (ch_get_value_ne_str _ _ _ _ _)
      · refine ⟨?_, ?_, ?_, ?_⟩
        · intro a b h0 h1
          simp [ch_get_average, hc, h0, h1]
        · intro a h0 h1
          rcases cell_cases (ch_get_value (some df) labels 1 allowNeg) with
            hv | hv | ⟨q, hv⟩ | hv | ⟨q, hv⟩
          · simp [ch_get_average, hc, h0, hv]
          · simp [ch_get_average, hc, h0, hv]
          · rw [hv] at h1; simp [isNumC] at h1
          · exact absurd hv (ch_get_value_ne_str _ _ _ _ _)
          · exact absurd hv (ch_get_value_ne_str _ _ _ _ _)
        · intro b h0 h1
          rcases cell_cases (ch_get_value (some df) labels 0 allowNeg) with
            hv | hv | ⟨q, hv⟩ | hv | ⟨q, hv⟩
          · simp [ch_get_average, hc, h0, hv, h1]
          · simp [ch_get_average, hc, h0, hv, h1]
          · rw [hv] at h0; simp [isNumC] at h0
          · exact absurd hv (ch_get_value_ne_str _ _ _ _ _)
          · exact absurd hv (ch_get_value_ne_str _ _ _ _ _)
        · intro h0 h1
          rcases cell_cases (ch_get_value (some df) labels 0 allowNeg) with
            hv0 | hv0 | ⟨q, hv0⟩ | hv0 | ⟨q, hv0⟩
          · rcases cell_cases (ch_get_value (some df) labels 1 allowNeg) with
              hv1 | hv1 | ⟨r, hv1⟩ | hv1 | ⟨r, hv1⟩
            · simp [ch_get_average, hc, hv0, hv1, pdIsna]
            · simp [ch_get_average, hc, hv0, hv1, pdIsna]
            · rw [hv1] at h1; simp [isNumC] at h1
            · exact absurd hv1 (ch_get_value_ne_str _ _ _ _ _)
            · exact absurd hv1 (ch_get_value_ne_str _ _ _ _ _)
          · rcases cell_cases (ch_get_value (some df) labels 1 allowNeg) with
              hv1 | hv1 | ⟨r, hv1⟩ | hv1 | ⟨r, hv1⟩
            · simp [ch_get_average, hc, hv0, hv1, pdIsna]
            · simp [ch_get_average, hc, hv0, hv1, pdIsna]
            · rw [hv1] at h1; simp [isNumC] at h1
            · exact absurd hv1 (ch_get_value_ne_str _ _ _ _ _)
            · exact absurd hv1 (ch_get_value_ne_str _ _ _ _ _)
          · rw [hv0] at h0; simp [isNumC] at h0
          · exact absurd hv0 (ch_get_value_ne_str _ _ _ _ _)
          · exact absurd hv0 (ch_get_value_ne_str _ _ _ _ _)
  · cases df? with
    | none => refine ⟨?_, ?_, ?_, ?_⟩ <;> simp [sv_get_value, sv_get_average, isNumC]
    | some df =>
      by_cases hc : df.ncols < 2
      · have h1 : sv_get_value (some df) labels 1 allowNeg = Cell.noneV :=
          sv_get_value_short df labels allowNeg hc
        have havg : sv_get_average (some df) labels allowNeg =
            sv_get_value (some df) labels 0 allowNeg := by
          simp [sv_get_average, hc]
        refine ⟨?_, ?_, ?_, ?_⟩
        · intro a b h0 hb
          rw [h1] at hb
          cases hb
        · intro a h0 hb
          rw [havg, h0]
        · intro b h0 hb
          rw [h1] at hb
          cases hb
        · intro h0 hb
          rw [havg]
          rcases cell_cases (sv_get_value (some df) labels 0 allowNeg) with
            hv | hv | ⟨q, hv⟩ | hv | ⟨q, hv⟩
          · exact Or.inl hv
          · exact Or.inr hv
          · rw [hv] at h0; simp [isNumC] at h0
          · exact absurd hv (sv_get_value_ne_str _ _ _ _ _)
          · exact absurd hv (sv_get_value_ne_str _ _ _ _ _)
      · refine ⟨?_, ?_, ?_, ?_⟩
        · intro a b h0 h1
          simp [sv_get_average, hc, h0, h1, pdIsna]
        · intro a h0 h1
          rcases cell_cases (sv_get_value (some df) labels 1 allowNeg) with
            hv | hv | ⟨q, hv⟩ | hv | ⟨q, hv⟩
          · simp [sv_get_average, hc, h0, hv, pdIsna]
          · simp [sv_get_average, hc, h0, hv, pdIsna]
          · rw [hv] at h1; simp [isNumC] at h1
          · exact absurd hv (sv_get_value_ne_str _ _ _ _ _)
          · exact absurd hv (sv_get_value_ne_str _ _ _ _ _)
        · intro b h0 h1
          rcases cell_cases (sv_get_value (some df) labels 0 allowNeg) with
            hv | hv | ⟨q, hv⟩ | hv | ⟨q, hv⟩
          · simp [sv_get_average, hc, h0, hv, h1, pdIsna]
          · simp [sv_get_average, hc, h0, hv, h1, pdIsna]
          · rw [hv] at h0; simp [isNumC] at h0
          · exact absurd hv (sv_get_value_ne_str _ _ _ _ _)
          · exact absurd hv (sv_get_value_ne_str _ _ _ _ _)
        · intro h0 h1
          rcases cell_cases (sv_get_value (some df) labels 0 allowNeg) with
            hv0 | hv0 | ⟨q, hv0⟩ | hv0 | ⟨q, hv0⟩
          · rcases cell_cases (sv_get_value (some df) labels 1 allowNeg) with
              hv1 | hv1 | ⟨r, hv1⟩ | hv1 | ⟨r, hv1⟩
            · simp [sv_get_average, hc, hv0, hv1, pdIsna]
            · simp [sv_get_average, hc, hv0, hv1, pdIsna]
            · rw [hv1] at h1; simp [isNumC] at h1
            · exact absurd hv1 (sv_get_value_ne_str _ _ _ _ _)
            · exact absurd hv1 (sv_get_value_ne_str _ _ _ _ _)
          · rcases cell_cases (sv_get_value (some df) labels 1 allowNeg) with
              hv1 | hv1 | ⟨r, hv1⟩ | hv1 | ⟨r, hv1⟩
            · simp [sv_get_average, hc, hv0, hv1, pdIsna]
            · simp [sv_get_average, hc, hv0, hv1, pdIsna]
            · rw [hv1] at h1; simp [isNumC] at h1
            · exact absurd hv1 (sv_get_value_ne_str _ _ _ _ _)
            · exact absurd hv1 (sv_get_value_ne_str _ _ _ _ _)
          · rw [hv0] at h0; simp [isNumC] at h0
          · exact absurd hv0 (sv_get_value_ne_str _ _ _ _ _)
          · exact absurd hv0 (sv_get_value_ne_str _ _ _ _ _)
  · refine ⟨?_, ?_, ?_⟩
    · intro a b
      simp [avgIfBoth, pdIsna, pyAdd, pyDiv2, bind, Except.bind]
    · intro a p hp
      cases p <;> simp_all [avgIfBoth, pdIsna]
    · intro l p hl
      cases l <;> simp_all [avgIfBoth, pdIsna]

/-- Claim C7, counterexample: the inline averaging of metrics.py (the
`(latest + prev) / 2 if pd.notna(latest) and pd.notna(prev) else
latest` pattern at the cited lines of
`calculate_profitability_metrics`) returns the MISSING latest-period
value when only the prior period resolves to a number, instead of the
claimed single resolved value: averaging NaN with 90 gives NaN, not
90, and on a balance sheet whose latest-period Stockholder Equity is
NaN while the prior-period value is 50, ROE is dropped from the
result entirely rather than computed against the prior equity. -/
theorem C7_counterexample :
    avgIfBoth Cell.nanV (Cell.num 90) = Except.ok Cell.nanV
  ∧ avgIfBoth Cell.nanV (Cell.num 90) ≠ Except.ok (Cell.num 90)
  ∧ calculate_profitability_metrics (some incNIRev) (some bsPriorEquity) =
      Except.ok [("ROA", MVal.num (1/20)), ("Net Margin", MVal.num (1/10))] := by
  refine ⟨by simp [avgIfBoth, pdIsna], by simp [avgIfBoth, pdIsna], ?_⟩
  simp [calculate_profitability_metrics, calc_profitability_raw, DF.isEmpty, DF.colS,
    incNIRev, bsPriorEquity, get_metric, pdIsna, safe_division_m, denomBad, pyAdd, pyDiv2,
    avgIfBoth, filterM, mIsna, List.lookup, List.getD, Except.map, bind, Except.bind]
  try norm_num [filterM, mIsna]

/-- Claim C7, witness: both averaging functions on a two-period table
with values 100 and 90 give 95. -/
theorem C7_witness :
    ch_get_average (some dfTwoPeriods) ["Total Revenue"] true = Cell.num 95
  ∧ sv_get_average (some dfTwoPeriods) ["Total Revenue"] true = Cell.num 95 := by
  constructor
  · have h := (C7_theorem (some dfTwoPeriods) ["Total Revenue"] true).1.1 100 90
      (by simp [ch_get_value, ch_loop, lookupRow, dfTwoPeriods, DF.isEmpty, List.lookup, List.getD])
      (by simp [ch_get_value, ch_loop, lookupRow, dfTwoPeriods, DF.isEmpty, List.lookup, List.getD])
    rw [h]
    norm_num
  · have h := (C7_theorem (some dfTwoPeriods) ["Total Revenue"] true).2.1.1 100 90
      (by simp [sv_get_value, sv_loop, lookupRow, dfTwoPeriods, DF.isEmpty, List.lookup, List.getD])
      (by simp [sv_get_value, sv_loop, lookupRow, dfTwoPeriods, DF.isEmpty, List.lookup, List.getD])
    rw [h]
    norm_num

theorem sv_loop_first (df : DF) (col : ℕ) (labels : List String) (l : String) (c : Cell)
    (hfirst : labels.find? (fun l2 => inIndex df l2) = some l)
    (hcell : (lookupRow df l).map (fun cells => cells.getD col Cell.noneV) = some c)
    (hok : c ≠ Cell.str Option.none) :
    sv_loop df col labels = loopVal c := by
  induction labels with
  | nil => simp at hfirst
  | cons l0 rest ih =>
    by_cases hp : inIndex df l0 = true
    · rw [List.find?_cons_of_pos _ (by simpa using hp)] at hfirst
      have hl : l0 = l := by simpa using hfirst
      subst hl
      rcases Option.isSome_iff_exists.mp (by simpa [inIndex] using hp) with ⟨cells, hcells⟩
      rw [hcells] at hcell
      simp only [Option.map_some'] at hcell
      have hcv : cells.getD col Cell.noneV = c := by simpa using hcell
      simp only [sv_loop, hcells, hcv]
      rcases cell_cases c with rfl | rfl | ⟨q, rfl⟩ | rfl | ⟨q, rfl⟩
      · simp [loopVal]
      · simp [loopVal]
      · simp [loopVal]
      · exact absurd rfl hok
      · simp [loopVal]
    · rw [List.find?_cons_of_neg _ (by simpa using hp)] at hfirst
      have hnone : lookupRow df l0 = Option.none := by
        rcases h2 : lookupRow df l0 with _ | cells
        · rfl
        · exact absurd (by simp [inIndex, h2]) hp
      simp only [sv_loop, hnone]
      exact ih hfirst

theorem ch_loop_first (df : DF) (col : ℕ) (labels : List String) (l : String) (c : Cell)
    (hfirst : labels.find? (fun l2 => inIndex df l2) = some l)
    (hcell : (lookupRow df l).map (fun cells => cells.getD col Cell.noneV) = some c)
    (hok : c ≠ Cell.str Option.none) :
    ch_loop df col labels = (some (loopVal c), true) := by
  induction labels with
  | nil => simp at hfirst
  | cons l0 rest ih =>
    by_cases hp : inIndex df l0 = true
    · rw [List.find?_cons_of_pos _ (by simpa using hp)] at hfirst
      have hl : l0 = l := by simpa using hfirst
      subst hl
      rcases Option.isSome_iff_exists.mp (by simpa [inIndex] using hp) with ⟨cells, hcells⟩
      rw [hcells] at hcell
      simp only [Option.map_some'] at hcell
      have hcv : cells.getD col Cell.noneV = c := by simpa using hcell
      simp only [ch_loop, hcells, hcv]
      rcases cell_cases c with rfl | rfl | ⟨q, rfl⟩ | rfl | ⟨q, rfl⟩
      · simp [loopVal]
      · simp [loopVal]
      · simp [loopVal]
      · exact absurd rfl hok
      · simp [loopVal]
    · rw [List.find?_cons_of_neg _ (by simpa using hp)] at hfirst
      have hnone : lookupRow df l0 = Option.none := by
        rcases h2 : lookupRow df l0 with _ | cells
        · rfl
        · exact absurd (by simp [inIndex, h2]) hp
      simp only [ch_loop, hnone]
      exact ih hfirst

/-- Claim C8, counterexample: with the first synonym "Stockholder
Equity" PRESENT in the row index but holding an unparseable string,
both resolvers skip it (the `float` conversion fails and the loop
continues) and return 5, the value of the LATER synonym "Total
Stockholder Equity", refuting the claim that the result is always the
value belonging to the first synonym present in the row index. -/
theorem C8_counterexample :
    inIndex dfStrFirst "Stockholder Equity" = true
  ∧ lookupRow dfStrFirst "Stockholder Equity" = some [Cell.str Option.none]
  ∧ ch_get_value (some dfStrFirst) ["Stockholder Equity", "Total Stockholder Equity"] 0 true =
      Cell.num 5
  ∧ sv_get_value (some dfStrFirst) ["Stockholder Equity", "Total Stockholder Equity"] 0 true =
      Cell.num 5 := by
  refine ⟨by decide, by decide, ?_, ?_⟩ <;>
    simp [ch_get_value, sv_get_value, ch_loop, sv_loop, lookupRow, dfStrFirst, DF.isEmpty,
      List.lookup, List.getD]

/-- Claim C8, amended: both resolvers return the resolved value of
the first synonym (in list order) present in the table's row index,
PROVIDED that label's cell is not an unparseable string: a
`None`/NaN cell resolves to NaN, a numeric or numerically-parseable
string cell resolves to its number subject to the negative-value
rejection.  A present label whose cell fails `float` conversion is
skipped and the search continues with later synonyms (see the
counterexample).  The spec example holds: with synonyms
["Stockholder Equity", "Total Stockholder Equity"] and a table
containing only "Total Stockholder Equity" = 1000, the result is
1000 (see the witness). -/
theorem C8_theorem (df : DF) (labels : List String) (col : ℕ) (allowNeg : Bool)
    (l : String) (c : Cell)
    (hempty : df.isEmpty = false) (hcol : col < df.ncols)
    (hfirst : labels.find? (fun l2 => inIndex df l2) = some l)
    (hcell : (lookupRow df l).map (fun cells => cells.getD col Cell.noneV) = some c)
    (hok : c ≠ Cell.str Option.none) :
    ch_get_value (some df) labels col allowNeg = resolveCell c allowNeg
  ∧ sv_get_value (some df) labels col allowNeg = resolveCell c allowNeg := by
  constructor
  · have hloop := ch_loop_first df col labels l c hfirst hcell hok
    simp only [ch_get_value, hloop, hempty]
    rcases cell_cases c with rfl | rfl | ⟨q, rfl⟩ | rfl | ⟨q, rfl⟩ <;>
      simp [loopVal, resolveCell, hempty, hcol.not_le]
  · have hloop := sv_loop_first df col labels l c hfirst hcell hok
    simp only [sv_get_value, hloop, hempty]
    rcases cell_cases c with rfl | rfl | ⟨q, rfl⟩ | rfl | ⟨q, rfl⟩ <;>
      simp [loopVal, resolveCell, hempty, hcol.not_le]

/-- Claim C8, witness: the amended theorem applied to the spec
example table holding only "Total Stockholder Equity" = 1000. -/
theorem C8_witness :
    ch_get_value (some df1000) ["Stockholder Equity", "Total Stockholder Equity"] 0 true =
      Cell.num 1000
  ∧ sv_get_value (some df1000) ["Stockholder Equity", "Total Stockholder Equity"] 0 true =
      Cell.num 1000 := by
  have h := C8_theorem df1000 ["Stockholder Equity", "Total Stockholder Equity"] 0 true
    "Total Stockholder Equity" (Cell.num 1000) (by decide) (by decide)
    (by decide) (by decide) (by decide)
  constructor
  · rw [h.1]
    simp [resolveCell, loopVal]
  · rw [h.2]
    simp [resolveCell, loopVal]

/-- Claim C9: in both scoring implementations the overall rating is
derived from points / possiblePoints with inclusive cutoffs and a
possiblePoints = 0 guard.  When every scorable ratio is "no data"
(absent or NaN) the accumulated possible points are 0 and the overall
rating is "N/A (Insufficient Data)"; a quotient of exactly 0.75
(3 points of 4) yields "Green (Strong)", exactly 0.50 (2 of 4) yields
"Yellow (Average)", and a lower quotient yields "Red (Weak)". -/
theorem C9_theorem :
    (∀ metrics : List (String × MVal), metrics ≠ [] →
      (∀ k ∈ ["ROE", "Net Margin", "Debt/Equity", "Current Ratio", "Interest Coverage"],
          scorableInvalid metrics k) →
      (sv_perform_scoring metrics).overall = "N/A (Insufficient Data)" ∧
        (sv_perform_scoring metrics).possible = 0)
  ∧ (∀ metrics : List (String × MVal), metrics ≠ [] →
      (∀ k ∈ ["ROE", "Net Margin", "Debt/Equity", "Interest Coverage", "Current Ratio", "P/E"],
          scorableInvalid metrics k) →
      (perform_scoring metrics).overall = "N/A (Insufficient Data)" ∧
        (perform_scoring metrics).possible = 0)
  ∧ ((sv_perform_scoring [("ROE", MVal.num (5/100)), ("Net Margin", MVal.num (10/100))]).points = 3
    ∧ (sv_perform_scoring [("ROE", MVal.num (5/100)), ("Net Margin", MVal.num (10/100))]).possible = 4
    ∧ (sv_perform_scoring [("ROE", MVal.num (5/100)), ("Net Margin", MVal.num (10/100))]).overall =
        "Green (Strong)")
  ∧ ((sv_perform_scoring [("ROE", MVal.num (5/100)), ("Net Margin", MVal.num (5/100))]).points = 2
    ∧ (sv_perform_scoring [("ROE", MVal.num (5/100)), ("Net Margin", MVal.num (5/100))]).possible = 4
    ∧ (sv_perform_scoring [("ROE", MVal.num (5/100)), ("Net Margin", MVal.num (5/100))]).overall =
        "Yellow (Average)")
  ∧ (sv_perform_scoring [("ROE", MVal.num (1/100))]).overall = "Red (Weak)" := by
  refine ⟨?_, ?_, ?_, ?_, ?_⟩
  · intro metrics hne h
    have hne2 : metrics.isEmpty = false := by
      cases metrics
      · exact absurd rfl hne
      · rfl
    have hROE := rate_metric_na (metrics.lookup "ROE") (15/100) (5/100) true
      (h "ROE" (by simp))
    have hNM := rate_metric_na (metrics.lookup "Net Margin") (10/100) (3/100) true
      (h "Net Margin" (by simp))
    have hDE := rate_metric_na (metrics.lookup "Debt/Equity") (6/10) (12/10) false
      (h "Debt/Equity" (by simp))
    have hCR := rate_metric_na (metrics.lookup "Current Ratio") (18/10) 1 true
      (h "Current Ratio" (by simp))
    have hIC := rate_metric_na (metrics.lookup "Interest Coverage") 5 2 true
      (h "Interest Coverage" (by simp))
    simp [sv_perform_scoring, hne2, hROE, hNM, hDE, hCR, hIC, overallFromPoints]
  · intro metrics hne h
    have hne2 : metrics.isEmpty = false := by
      cases metrics
      · exact absurd rfl hne
      · rfl
    have hget : ∀ k, scorableInvalid metrics k →
        (metrics.lookup k).getD MVal.nanV = MVal.nanV := by
      intro k hk
      rcases hk with hk | hk <;> simp [hk]
    have hROE := hget "ROE" (h "ROE" (by simp))
    have hNM := hget "Net Margin" (h "Net Margin" (by simp))
    have hDE := hget "Debt/Equity" (h "Debt/Equity" (by simp))
    have hIC := hget "Interest Coverage" (h "Interest Coverage" (by simp))
    have hCR := hget "Current Ratio" (h "Current Ratio" (by simp))
    have hPE := hget "P/E" (h "P/E" (by simp))
    simp [perform_scoring, hne2, hROE, hNM, hDE, hIC, hCR, hPE,
      stepHigher2, stepLower2, stepHigher1, stepLower1, mNotna, mIsna, overallFromPoints]
  · refine ⟨?_, ?_, ?_⟩ <;>
      (simp [sv_perform_scoring, rate_metric, mNotna, mIsna, mGe, mLe, overallFromPoints,
         List.lookup]
       try norm_num)
  · refine ⟨?_, ?_, ?_⟩ <;>
      (simp [sv_perform_scoring, rate_metric, mNotna, mIsna, mGe, mLe, overallFromPoints,
         List.lookup]
       try norm_num)
  · simp [sv_perform_scoring, rate_metric, mNotna, mIsna, mGe, mLe, overallFromPoints,
      List.lookup]
    try norm_num

/-- Claim C9, witness: a nonempty metrics dictionary whose only entry
is not a scorable ratio yields "N/A (Insufficient Data)" in both
implementations. -/
theorem C9_witness :
    (sv_perform_scoring [("Quick Ratio", MVal.num 1)]).overall = "N/A (Insufficient Data)"
  ∧ (perform_scoring [("Quick Ratio", MVal.num 1)]).overall = "N/A (Insufficient Data)" :=
  ⟨(C9_theorem.1 [("Quick Ratio", MVal.num 1)] (by simp)
      (by intro k hk; fin_cases hk <;> simp [scorableInvalid, List.lookup])).1,
   (C9_theorem.2.1 [("Quick Ratio", MVal.num 1)] (by simp)
      (by intro k hk; fin_cases hk <;> simp [scorableInvalid, List.lookup])).1⟩

/-- Claim C10: every mapping returned by the five metrics.py category
calculators contains only entries whose value is not NaN (a "no data"
ratio is omitted from the mapping by the trailing filter), while
numeric results are retained, including the infinite Interest
Coverage of the EBIT = 100, InterestExpense = 0 statement. -/
theorem C10_theorem :
    (∀ income_stmt balance_sheet : Option DF, ∀ m,
        calculate_profitability_metrics income_stmt balance_sheet = Except.ok m →
        ∀ kv ∈ m, kv.2 ≠ MVal.nanV)
  ∧ (∀ key_stats, ∀ kv ∈ calculate_valuation_metrics key_stats, pdIsna kv.2 = false)
  ∧ (∀ balance_sheet, ∀ m, calculate_liquidity_metrics balance_sheet = Except.ok m →
        ∀ kv ∈ m, kv.2 ≠ MVal.nanV)
  ∧ (∀ income_stmt balance_sheet, ∀ m,
        calculate_efficiency_metrics income_stmt balance_sheet = Except.ok m →
        ∀ kv ∈ m, kv.2 ≠ MVal.nanV)
  ∧ (∀ balance_sheet income_stmt, ∀ m,
        calculate_solvency_metrics balance_sheet income_stmt = Except.ok m →
        ∀ kv ∈ m, kv.2 ≠ MVal.nanV)
  ∧ calculate_solvency_metrics (some bsEqOnly) (some incEbitZeroIE) =
      Except.ok [("Debt/Equity", MVal.num 0), ("Interest Coverage", MVal.inf)] := by
  refine ⟨?_, ?_, ?_, ?_, ?_, ?_⟩
  · intro i b m hm kv hkv
    unfold calculate_profitability_metrics at hm
    cases hr : calc_profitability_raw i b with
    | error e => rw [hr] at hm; simp [Except.map] at hm
    | ok l =>
      rw [hr] at hm
      simp only [Except.map, Except.ok.injEq] at hm
      subst hm
      exact mem_filterM hkv
  · intro ks kv hkv
    cases ks with
    | none => simp [calculate_valuation_metrics] at hkv
    | some s =>
      simp only [calculate_valuation_metrics] at hkv
      exact mem_filterC hkv
  · intro b m hm kv hkv
    unfold calculate_liquidity_metrics at hm
    cases hr : calc_liquidity_raw b with
    | error e => rw [hr] at hm; simp [Except.map] at hm
    | ok l =>
      rw [hr] at hm
      simp only [Except.map, Except.ok.injEq] at hm
      subst hm
      exact mem_filterM hkv
  · intro i b m hm kv hkv
    unfold calculate_efficiency_metrics at hm
    cases hr : calc_efficiency_raw i b with
    | error e => rw [hr] at hm; simp [Except.map] at hm
    | ok l =>
      rw [hr] at hm
      simp only [Except.map, Except.ok.injEq] at hm
      subst hm
      exact mem_filterM hkv
  · intro b i m hm kv hkv
    unfold calculate_solvency_metrics at hm
    cases hr : calc_solvency_raw b i with
    | error e => rw [hr] at hm; simp [Except.map] at hm
    | ok l =>
      rw [hr] at hm
      simp only [Except.map, Except.ok.injEq] at hm
      subst hm
      exact mem_filterM hkv
  · simp [calculate_solvency_metrics, calc_solvency_raw, DF.isEmpty, DF.colS, bsEqOnly,
      incEbitZeroIE, get_metric, pdIsna, safe_division_m, denomBad, pyAdd, pyAbs, cellGt0,
      cellNe0, filterM, mIsna, List.lookup, Except.map, bind, Except.bind]
    try norm_num [filterM, mIsna]

/-- Claim C10, witness: the solvency filter guarantee applied to the
concrete infinite-coverage result. -/
theorem C10_witness : MVal.inf ≠ MVal.nanV :=
  C10_theorem.2.2.2.2.1 (some bsEqOnly) (some incEbitZeroIE)
    [("Debt/Equity", MVal.num 0), ("Interest Coverage", MVal.inf)]
    C10_theorem.2.2.2.2.2
    ("Interest Coverage", MVal.inf) (by simp)
